import Mathlib

/-!
# MenuComponent: layout arithmetic and input routing

A shallow embedding of `es-core/src/components/MenuComponent.cpp`.

* A C++ `float` is a rational `ℚ`. A float operation rounds its exact result with
  `Env.fl`, the rounding to the nearest `float`, which is a parameter: what is proved
  of a panel holds for every rounding, the 32-bit one (`roundF32`) included. A float
  literal such as `0.90f` is `Env.fl 0.90`. `double` operands are taken as exact.
  The one exception is `makeButtonGrid`, embedded in exact arithmetic: its properties
  are those of the exact quotients.
* `(int)` casts truncate toward zero (`toInt`).
* Shared pointers to child widgets are values held in the panel state; a grid cell
  refers to its widget through a `Child` tag, a null pointer is `none`. The row list
  `mList` is the one pointer that is set once, by the constructor, and never null
  afterwards: it is a plain field, and the constructor (`create`) has no result on
  the path that would dereference it before it is set.
* Collaborators whose source is not part of this file (renderer, locale, theme,
  fonts, text measurement, the row list's row measurement, the header macros) are
  fields of `Env`.
* `onSizeChanged`, which lays the rendered children out again after `setSize` (the
  background, the row heights and size of the outer grid, origin, position and
  maximum size of a title image that replaces the title), is not embedded: no
  property below reads what it writes.
-/

namespace ES

/-! ## Widgets -/

/-- Alignment values of a text widget. -/
inductive Alignment
  | ALIGN_LEFT
  | ALIGN_CENTER
  | ALIGN_RIGHT
  | ALIGN_TOP
  | ALIGN_BOTTOM
  deriving DecidableEq

/-- Two-component float vector. -/
structure Vector2f where
  x : ℚ
  y : ℚ
  deriving DecidableEq

/-- Four-component float vector (left, top, right, bottom). -/
structure Vector4f where
  x : ℚ
  y : ℚ
  z : ℚ
  w : ℚ
  deriving DecidableEq

/-- The two font metrics the menu reads. -/
structure Font where
  letterHeight : ℚ
  height : ℚ
  deriving DecidableEq

/-- State of a text widget. A freshly made one is left-aligned and visible. -/
structure TextComponent where
  text : String
  font : Font
  color : Nat := 0
  horizontalAlignment : Alignment := Alignment.ALIGN_LEFT
  verticalAlignment : Alignment := Alignment.ALIGN_CENTER
  size : Vector2f := ⟨0, 0⟩
  padding : Vector4f := ⟨0, 0, 0, 0⟩
  lineSpacing : ℚ := 3 / 2
  visible : Bool := true
  deriving DecidableEq

/-- State of an image widget. A freshly made one is not mirrored. -/
structure ImageComponent where
  path : String
  colorShift : Nat := 0
  resize : Vector2f := ⟨0, 0⟩
  maxSize : Vector2f := ⟨0, 0⟩
  padding : ℚ := 0
  flipX : Bool := false
  deriving DecidableEq

/-- A label with a description line under it. -/
structure MultiLineMenuEntry where
  text : String
  substring : String
  multiLine : Bool
  deriving DecidableEq

/-- Handle of a caller-supplied callback (`std::function<void()>`). -/
abbrev Callback := Nat

/-- Handle of a caller-supplied control widget. -/
abbrev Control := Nat

/-- What a row can hold. -/
inductive RowElement
  | image (img : ImageComponent)
  | spacer (size : Vector2f)
  | text (t : TextComponent)
  | multiLine (e : MultiLineMenuEntry)
  | control (c : Control)
  deriving DecidableEq

/-- A row under construction: its elements, each with its resize-width flag, and the
accept handler with its fire-on-release flag. -/
structure ComponentListRow where
  elements : List (RowElement × Bool) := []
  acceptHandler : Option (Callback × Bool) := none
  deriving DecidableEq

/-- Update mode of the row list. -/
inductive UpdateType
  | UPDATE_WHEN_SELECTED
  | UPDATE_ALWAYS
  deriving DecidableEq

/-- The row list: rows with their tag, in order, and the cursor. -/
structure ComponentList where
  mEntries : List (ComponentListRow × String) := []
  mCursor : Nat := 0
  mUpdateType : UpdateType := UpdateType.UPDATE_WHEN_SELECTED
  deriving DecidableEq

/-- The tab strip: (label, value) pairs, the selected index and its size. -/
structure ComponentTab where
  mTabs : List (String × String) := []
  mCursor : Nat := 0
  mSize : Vector2f := ⟨0, 0⟩
  deriving DecidableEq

/-- An action button. -/
structure ButtonComponent where
  text : String
  helpText : String
  callback : Option Callback
  mSize : Vector2f
  deriving DecidableEq

/-- Tags of the widgets a grid cell can refer to. -/
inductive Child
  | title
  | subtitle
  | titleImage
  | headerGrid
  | tabs
  | list
  | buttonGrid
  | button (i : Nat)
  deriving DecidableEq

/-- One populated grid cell. -/
structure GridEntry where
  component : Child
  pos : Nat × Nat
  canFocus : Bool
  resize : Bool
  dim : Nat × Nat := (1, 1)
  deriving DecidableEq

/-- Modelled from the spec: the grid container `ComponentGrid`, whose source is not
part of this file. A grid keeps its populated cells, its size, its cursor and, for
each column and each row, the percentage last stored for it by `setColWidthPerc` or
`setRowHeightPerc`: `none` as long as none was stored. -/
structure ComponentGrid where
  mGridSize : Nat × Nat
  mCells : List GridEntry := []
  mColWidths : List (Option ℚ)
  mRowHeights : List (Option ℚ)
  mSize : Vector2f := ⟨0, 0⟩
  mCursor : Nat × Nat := (0, 0)
  deriving DecidableEq

namespace ComponentGrid

/-- Grid constructor: no cell populated, no percentage stored. -/
def create (gridDimensions : Nat × Nat) : ComponentGrid :=
  { mGridSize := gridDimensions
    mColWidths := List.replicate gridDimensions.1 none
    mRowHeights := List.replicate gridDimensions.2 none }

/-- Populate a cell. -/
def setEntry (g : ComponentGrid) (c : Child) (pos : Nat × Nat) (canFocus resize : Bool)
    (dim : Nat × Nat) : ComponentGrid :=
  { g with mCells := g.mCells ++ [{ component := c, pos := pos, canFocus := canFocus,
                                    resize := resize, dim := dim }] }

/-- Drop the cell holding a widget. -/
def removeEntry (g : ComponentGrid) (c : Child) : ComponentGrid :=
  { g with mCells := g.mCells.filter fun e => decide (e.component ≠ c) }

/-- Modelled from the spec: `ComponentGrid::setColWidthPerc`, whose source is not
part of this file: the percentage given is what the grid holds for that column. -/
def setColWidthPerc (g : ComponentGrid) (col : Nat) (width : ℚ) : ComponentGrid :=
  { g with mColWidths := g.mColWidths.set col (some width) }

/-- Modelled from the spec: `ComponentGrid::setRowHeightPerc`, whose source is not
part of this file: the percentage given is what the grid holds for that row. -/
def setRowHeightPerc (g : ComponentGrid) (row : Nat) (height : ℚ) : ComponentGrid :=
  { g with mRowHeights := g.mRowHeights.set row (some height) }

/-- Resize the grid. -/
def setSize (g : ComponentGrid) (w h : ℚ) : ComponentGrid :=
  { g with mSize := ⟨w, h⟩ }

/-- The width percentage the grid holds for a column: the one last stored for it,
`none` when none was. -/
def colWidthPerc (g : ComponentGrid) (col : Nat) : Option ℚ := g.mColWidths.getD col none

/-- The height percentage the grid holds for a row: the one last stored for it, `none`
when none was. -/
def rowHeightPerc (g : ComponentGrid) (row : Nat) : Option ℚ := g.mRowHeights.getD row none

/-- The widget in the cell under the cursor, null when that cell is empty. -/
def getSelectedComponent (g : ComponentGrid) : Option Child :=
  (g.mCells.find? fun e => decide (e.pos = g.mCursor)).map fun e => e.component

/-- The cursor goes to the first cell, rows first, that can take focus. -/
def resetCursor (g : ComponentGrid) : ComponentGrid :=
  let cells := (List.range g.mGridSize.2).flatMap fun y =>
    (List.range g.mGridSize.1).map fun x => (x, y)
  match cells.find? fun p => g.mCells.any fun e => decide (e.pos = p) && e.canFocus with
  | some p => { g with mCursor := p }
  | none => g

end ComponentGrid

/-! ## Environment -/

/-- The menu theme entries the panel reads. -/
structure MenuTheme where
  titleFont : Font
  titleColor : Nat
  textFont : Font
  textColor : Nat
  textSmallFont : Font
  textSmallColor : Nat
  arrow : String
  getMenuIcon : String → String

/-- Everything the panel asks of its collaborators. `fl` is the rounding of a real
number to the nearest `float`: the result of a float operation is `fl` of the exact
result. `TITLE_VERT_PADDING`, `TITLE_WITHSUB_VERT_PADDING` and
`SUBTITLE_VERT_PADDING` are macros of the header file; `textHeight` is the height a
text widget takes once its text is set; `buttonSize` is the size a button gives
itself for its label; `getRowHeight` is the row list's measurement of a row. -/
structure Env where
  fl : ℚ → ℚ
  screenWidth : ℚ
  screenHeight : ℚ
  fullScreenMenus : Bool
  isRTL : Bool
  theme : MenuTheme
  TITLE_VERT_PADDING : ℚ
  TITLE_WITHSUB_VERT_PADDING : ℚ
  SUBTITLE_VERT_PADDING : ℚ
  textHeight : Font → String → ℚ
  buttonSize : String → Vector2f
  getRowHeight : ComponentListRow → ℚ

/-- Vertical padding macro of the button bar. -/
def BUTTON_GRID_VERT_PADDING (env : Env) : ℚ := env.screenHeight * 0.0296296

/-- Horizontal padding macro of the button bar. -/
def BUTTON_GRID_HORIZ_PADDING (env : Env) : ℚ := env.screenWidth * 0.0052083333

/-- A float addition: the exact sum, rounded. -/
def fadd (env : Env) (a b : ℚ) : ℚ := env.fl (a + b)

/-- C++ `(int)` cast of a float: truncation toward zero. -/
def toInt (x : ℚ) : ℤ := if 0 ≤ x then ⌊x⌋ else ⌈x⌉

/-- The panel width: `(float)Math::min((int)getScreenHeight(), (int)(getScreenWidth()
* 0.90f))`. -/
def panelWidth (env : Env) : ℚ :=
  ((min (toInt env.screenHeight) (toInt (env.fl (env.screenWidth * env.fl 0.90))) : ℤ) : ℚ)

/-- Modelled from the spec: `Utils::String::toUpper`, whose source is not part of
this file: the string case-folded to upper case. -/
def Utils.String.toUpper (s : String) : String := ⟨s.data.map Char.toUpper⟩

/-! ## The panel -/

/-- State of a menu panel. -/
structure MenuComponent where
  mSize : Vector2f := ⟨0, 0⟩
  mMaxHeight : ℚ := 0
  mGrid : ComponentGrid
  mHeaderGrid : ComponentGrid
  mTitle : TextComponent
  mSubtitle : Option TextComponent := none
  mTitleImage : Option ImageComponent := none
  mTabs : Option ComponentTab := none
  mList : ComponentList := {}
  mButtonGrid : Option ComponentGrid := none
  mButtons : List ButtonComponent := []
  mTabIndex : Nat := 0

namespace MenuComponent

/-- Macro `TITLE_HEIGHT`, a sum of floats. -/
def TITLE_HEIGHT (env : Env) (s : MenuComponent) : ℚ :=
  fadd env
    (fadd env s.mTitle.font.letterHeight
      (if s.mSubtitle.isSome then env.TITLE_WITHSUB_VERT_PADDING
       else env.TITLE_VERT_PADDING))
    (match s.mSubtitle with
     | some sub => fadd env sub.size.y env.SUBTITLE_VERT_PADDING
     | none => 0)

/-- Height of the button bar, or of a line of text plus padding when there is none. -/
def getButtonGridHeight (env : Env) (s : MenuComponent) : ℚ :=
  match s.mButtonGrid with
  | some g => g.mSize.y
  | none => fadd env env.theme.textFont.height (BUTTON_GRID_VERT_PADDING env)

/-- The heights of the rows of the list, in list order (`mList->getRowHeight(i)`). -/
def rowHeights (env : Env) (s : MenuComponent) : List ℚ :=
  s.mList.mEntries.map fun e => env.getRowHeight e.1

/-- Modelled from the spec: `ComponentList::getTotalRowHeight`, whose source is not
part of this file: the sum of all row heights, a float accumulated from 0 in list
order. -/
def getTotalRowHeight (env : Env) (s : MenuComponent) : ℚ :=
  (rowHeights env s).foldl (fadd env) 0

/-- The cap of `updateSize`: `mMaxHeight` when set, else 75% of the screen height. -/
def maxHeight (env : Env) (s : MenuComponent) : ℚ :=
  if s.mMaxHeight ≤ 0 then env.fl (env.screenHeight * env.fl 0.75) else s.mMaxHeight

/-- The height `updateSize` first computes, before any truncation. -/
def naturalHeight (env : Env) (s : MenuComponent) : ℚ :=
  let height :=
    fadd env (fadd env (fadd env (TITLE_HEIGHT env s) (getTotalRowHeight env s))
      (getButtonGridHeight env s)) 2
  match s.mTabs with
  | some tabs => if tabs.mTabs.length ≠ 0 then fadd env height tabs.mSize.y else height
  | none => height

/-- The `while` loop of `updateSize` over the rows still to visit: the running
height and the loop counter `i` when the loop ends. The test and the update use the
float sum `height + rowHeight`. -/
def updateSizeLoop (env : Env) (maxHeight : ℚ) : List ℚ → ℚ → Nat → ℚ × Nat
  | [], height, i => (height, i)
  | rowHeight :: rest, height, i =>
    if fadd env height rowHeight < maxHeight then
      updateSizeLoop env maxHeight rest (fadd env height rowHeight) (i + 1)
    else
      (height, i)

/-- The value of `height` when `updateSize` reaches `setSize`. -/
def computedHeight (env : Env) (s : MenuComponent) : ℚ :=
  let maxHeight := maxHeight env s
  let height := naturalHeight env s
  if height > maxHeight then
    (updateSizeLoop env maxHeight (rowHeights env s)
      (fadd env (TITLE_HEIGHT env s) (getButtonGridHeight env s)) 0).1
  else
    height

/-- The number of rows whose height the loop of `updateSize` adds (the final `i`). -/
def rowsAdded (env : Env) (s : MenuComponent) : Nat :=
  (updateSizeLoop env (maxHeight env s) (rowHeights env s)
    (fadd env (TITLE_HEIGHT env s) (getButtonGridHeight env s)) 0).2

/-- The float running total of the truncation branch after `k` rows: `start`, then
each of the first `k` row heights added in list order, every sum rounded. -/
def runningTotal (env : Env) (start : ℚ) (rows : List ℚ) (k : Nat) : ℚ :=
  (rows.take k).foldl (fadd env) start

/-- Left-aligns and pads title and subtitle when a title image sits next to a
visible title (the tail of `updateSize`). -/
def alignTitle (env : Env) (s : MenuComponent) : MenuComponent :=
  if s.mTitleImage.isSome ∧ s.mTitle.visible = true then
    let pad := env.fl (env.screenWidth * 0.012)
    { s with
      mTitle := { s.mTitle with padding := ⟨pad, 0, pad, 0⟩,
                                horizontalAlignment := Alignment.ALIGN_LEFT }
      mSubtitle := s.mSubtitle.map fun sub =>
        { sub with padding := ⟨pad, 0, pad, 0⟩,
                   horizontalAlignment := Alignment.ALIGN_LEFT } }
  else s

/-- Method `updateSize`. -/
def updateSize (env : Env) (s : MenuComponent) : MenuComponent :=
  if env.fullScreenMenus then
    { s with mSize := ⟨env.screenWidth, env.screenHeight⟩ }
  else
    let height := computedHeight env s
    let width : ℚ := panelWidth env
    alignTitle env { s with mSize := ⟨width, height⟩ }

end MenuComponent

/-! ## Button bar -/

/-- First loop of `makeButtonGrid`: populate row 0 and accumulate the bar width. -/
def makeButtonGrid_place (buttons : List ButtonComponent) (buttonGrid : ComponentGrid)
    (buttonGridWidth : ℚ) : ComponentGrid × ℚ :=
  buttons.enum.foldl
    (fun acc ib => (acc.1.setEntry (Child.button ib.1) (ib.1, 0) true false (1, 1),
                    acc.2 + ib.2.mSize.x))
    (buttonGrid, buttonGridWidth)

/-- Second loop of `makeButtonGrid`: store each column width percentage. -/
def makeButtonGrid_widths (env : Env) (buttons : List ButtonComponent)
    (buttonGrid : ComponentGrid) (buttonGridWidth : ℚ) : ComponentGrid :=
  buttons.enum.foldl
    (fun g ib => g.setColWidthPerc ib.1
      ((ib.2.mSize.x + BUTTON_GRID_HORIZ_PADDING env) / buttonGridWidth))
    buttonGrid

/-- Function `makeButtonGrid`. `buttons.at(0)` throws on an empty vector: `none`. -/
def makeButtonGrid (env : Env) (buttons : List ButtonComponent) : Option ComponentGrid :=
  match buttons with
  | [] => none
  | first :: _ =>
    let buttonGrid := ComponentGrid.create (buttons.length, 2)
    let buttonGridWidth : ℚ := BUTTON_GRID_HORIZ_PADDING env * buttons.length
    let placed := makeButtonGrid_place buttons buttonGrid buttonGridWidth
    let buttonGrid := makeButtonGrid_widths env buttons placed.1 placed.2
    let buttonGrid :=
      buttonGrid.setSize placed.2 (first.mSize.y + BUTTON_GRID_VERT_PADDING env + 2)
    some (buttonGrid.setRowHeightPerc 1 (2 / buttonGrid.mSize.y))

namespace MenuComponent

/-- Method `updateGrid`: tear the button bar down and rebuild it from `mButtons`. -/
def updateGrid (env : Env) (s : MenuComponent) : MenuComponent :=
  let s := if s.mButtonGrid.isSome then
      { s with mGrid := s.mGrid.removeEntry Child.buttonGrid } else s
  let s := { s with mButtonGrid := none }
  if s.mButtons.length ≠ 0 then
    match makeButtonGrid env s.mButtons with
    | some g =>
      { s with mButtonGrid := some g
               mGrid := s.mGrid.setEntry Child.buttonGrid (0, 3) true false (1, 1) }
    | none => s
  else s

/-- Method `clearButtons`. -/
def clearButtons (env : Env) (s : MenuComponent) : MenuComponent :=
  updateSize env (updateGrid env { s with mButtons := [] })

/-- Method `addButton`. -/
def addButton (env : Env) (name helpText : String) (callback : Option Callback)
    (s : MenuComponent) : MenuComponent :=
  let button : ButtonComponent :=
    { text := Utils.String.toUpper name, helpText := helpText, callback := callback,
      mSize := env.buttonSize (Utils.String.toUpper name) }
  updateSize env (updateGrid env { s with mButtons := s.mButtons ++ [button] })

/-- Calling `addButton` once per element of `bs`, in order. -/
def addButtons (env : Env) (bs : List (String × String × Option Callback))
    (s : MenuComponent) : MenuComponent :=
  bs.foldl (fun s b => addButton env b.1 b.2.1 b.2.2 s) s

/-! ## Header -/

/-- Method `setTitle`. -/
def setTitle (title : String) (font : Option Font) (s : MenuComponent) : MenuComponent :=
  let t := { s.mTitle with text := Utils.String.toUpper title }
  match font with
  | some f => { s with mTitle := { t with font := f } }
  | none => { s with mTitle := t }

/-- Method `setTitleImage`. -/
def setTitleImage (env : Env) (titleImage : Option ImageComponent) (replaceTitle : Bool)
    (s : MenuComponent) : MenuComponent :=
  match titleImage with
  | none =>
    let s := if s.mTitleImage.isSome then
        { s with mHeaderGrid := s.mHeaderGrid.removeEntry Child.titleImage
                 mTitleImage := none }
      else s
    { s with mHeaderGrid := (s.mHeaderGrid.setColWidthPerc 0 1).setColWidthPerc 1 0 }
  | some img =>
    let img := { img with padding := env.fl (TITLE_HEIGHT env s * env.fl 0.15) }
    if replaceTitle then
      let img := { img with
        maxSize := ⟨env.fl (s.mSize.x * env.fl 0.85), TITLE_HEIGHT env s⟩ }
      let grid := ((s.mHeaderGrid.setColWidthPerc 0 0).setColWidthPerc 1 1).setEntry
        Child.titleImage (0, 0) false false (2, 2)
      updateSize env
        { s with mTitleImage := some img
                 mHeaderGrid := grid
                 mTitle := { s.mTitle with visible := false }
                 mSubtitle := s.mSubtitle.map fun (sub : TextComponent) =>
                   { sub with visible := false } }
    else
      let width : ℚ := panelWidth env
      let iw := env.fl (TITLE_HEIGHT env s / width)
      let img := { img with
        maxSize := ⟨env.fl (env.fl (env.fl 1.3 * iw) * s.mSize.x), TITLE_HEIGHT env s⟩ }
      let grid :=
        ((s.mHeaderGrid.setColWidthPerc 0 (env.fl (1 - iw))).setColWidthPerc 1 iw).setEntry
          Child.titleImage (1, 0) false false (1, 2)
      updateSize env { s with mTitleImage := some img, mHeaderGrid := grid }

/-- The subtitle widget part of `setSubTitle` for a non-empty text: the widget is
created and put in cell (0, 1) when absent, then given its text, vertical alignment,
size and line spacing. The text it is created with (the upper-cased file name of
`text`) is replaced at once by `setText(text)`. Its height is what the text measures
once set. -/
def setSubTitle_widget (env : Env) (text : String) (s : MenuComponent) : MenuComponent :=
  let s := match s.mSubtitle with
    | some _ => s
    | none =>
      { s with
        mSubtitle := some
          { text := Utils.String.toUpper text, font := env.theme.textSmallFont,
            color := env.theme.textSmallColor,
            horizontalAlignment := Alignment.ALIGN_CENTER }
        mHeaderGrid := s.mHeaderGrid.setEntry Child.subtitle (0, 1) false true (1, 1) }
  { s with mSubtitle := s.mSubtitle.map fun (sub : TextComponent) =>
    { sub with text := text
               verticalAlignment := Alignment.ALIGN_TOP
               size := ⟨env.fl (env.screenWidth * env.fl 0.88), env.textHeight sub.font text⟩
               lineSpacing := env.fl 1.1 } }

/-- The local `titleHeight` of `setSubTitle`. -/
def setSubTitle_titleHeight (env : Env) (s : MenuComponent) : ℚ :=
  fadd env s.mTitle.font.letterHeight
    (if s.mSubtitle.isSome then env.TITLE_WITHSUB_VERT_PADDING else env.TITLE_VERT_PADDING)

/-- The row-height part of `setSubTitle`: row 0 gets `titleHeight / TITLE_HEIGHT`;
nothing is stored for row 1. -/
def setSubTitle_rowHeight (env : Env) (s : MenuComponent) : MenuComponent :=
  let titleHeight := setSubTitle_titleHeight env s
  { s with mHeaderGrid :=
    s.mHeaderGrid.setRowHeightPerc 0 (env.fl (titleHeight / TITLE_HEIGHT env s)) }

/-- Method `setSubTitle`. The nested `setTitleImage(mTitleImage)` call leaves
`replaceTitle` to its default, declared in the header file: `defaultReplaceTitle`. -/
def setSubTitle (env : Env) (defaultReplaceTitle : Bool) (text : String)
    (s : MenuComponent) : MenuComponent :=
  if text.isEmpty then
    let s := if s.mSubtitle.isSome then
        { s with mHeaderGrid := s.mHeaderGrid.removeEntry Child.subtitle
                 mSubtitle := none }
      else s
    { s with mHeaderGrid := (s.mHeaderGrid.setRowHeightPerc 0 1).setRowHeightPerc 1 0 }
  else
    let s := setSubTitle_rowHeight env (setSubTitle_widget env text s)
    let s := match s.mTitleImage with
      | some img => setTitleImage env (some img) defaultReplaceTitle s
      | none => s
    updateSize env s

/-- The part of the constructor that populates the outer grid: header in row 0, the
tab strip in row 1 when there is one, the row list in row 2. -/
def create_outerGrid (s : MenuComponent) : MenuComponent :=
  let s := { s with mGrid := s.mGrid.setEntry Child.headerGrid (0, 0) false true (1, 1) }
  let s := match s.mTabs with
    | some _ => { s with mGrid := s.mGrid.setEntry Child.tabs (0, 1) false true (1, 1) }
    | none => s
  { s with mGrid := s.mGrid.setEntry Child.list (0, 2) true true (1, 1) }

/-- The statements of the constructor, in order. The theme fonts are taken to be
non-null. The row list, created after `setSubTitle` has run, is the empty `mList` of
the initial state: on the paths where the constructor has a result (see `create`)
`setSubTitle` does not read it. The unhandled-input hook installed on the outer grid
is not embedded. -/
def construct (env : Env) (defaultReplaceTitle : Bool) (title : String)
    (titleFont : Option Font) (subTitle : String) (tabbedUI : Bool) : MenuComponent :=
  let _unused := titleFont
  let mTabs : Option ComponentTab := if tabbedUI then some {} else none
  let mTitle : TextComponent :=
    { text := "", font := env.theme.titleFont, color := env.theme.titleColor,
      horizontalAlignment := Alignment.ALIGN_CENTER }
  let header := (((ComponentGrid.create (2, 2)).setColWidthPerc 0 1).setColWidthPerc 1 0).setEntry
    Child.title (0, 0) false true (1, 1)
  let s : MenuComponent :=
    { mGrid := ComponentGrid.create (1, 4), mHeaderGrid := header, mTitle := mTitle,
      mTabs := mTabs, mMaxHeight := 0, mTabIndex := 0 }
  let s := setTitle title (some env.theme.titleFont) s
  let s := setSubTitle env defaultReplaceTitle subTitle s
  let s := create_outerGrid s
  let s := updateSize env (updateGrid env s)
  { s with mGrid := s.mGrid.resetCursor }

/-- Constructor. `setSubTitle(subTitle)` runs while `mList` is still null: with a
non-empty subtitle and full-screen menus off it reaches `updateSize`, which calls
`mList->getTotalRowHeight()` on the null pointer, and the constructor has no result
(`none`). With an empty subtitle `setSubTitle` returns before `updateSize`, and with
full-screen menus on `updateSize` returns before it reads the list. -/
def create (env : Env) (defaultReplaceTitle : Bool) (title : String)
    (titleFont : Option Font) (subTitle : String) (tabbedUI : Bool) :
    Option MenuComponent :=
  if subTitle.isEmpty = false ∧ env.fullScreenMenus = false then none
  else some (construct env defaultReplaceTitle title titleFont subTitle tabbedUI)

end MenuComponent

/-! ## Rows -/

namespace ComponentListRow

/-- Append an element to a row. -/
def addElement (row : ComponentListRow) (component : RowElement) (resize_width : Bool) :
    ComponentListRow :=
  { row with elements := row.elements ++ [(component, resize_width)] }

/-- Bind the accept handler of a row. -/
def makeAcceptInputHandler (row : ComponentListRow) (func : Callback)
    (onButtonRelease : Bool) : ComponentListRow :=
  { row with acceptHandler := some (func, onButtonRelease) }

end ComponentListRow

/-- C `round`: to the nearest integer, halves away from zero. -/
def round (x : ℚ) : ℚ := if 0 ≤ x then (⌊x + 1 / 2⌋ : ℤ) else (⌈x - 1 / 2⌉ : ℤ)

/-- Function `makeArrow`. -/
def makeArrow (env : Env) : ImageComponent :=
  { path := env.theme.arrow, colorShift := env.theme.textColor,
    resize := ⟨0, round env.theme.textFont.letterHeight⟩ }

namespace MenuComponent

/-- Method `addMenuIcon`. -/
def addMenuIcon (env : Env) (row : ComponentListRow) (iconName : String) : ComponentListRow :=
  if iconName.isEmpty then row
  else
    let iconPath := env.theme.getMenuIcon iconName
    if ¬ iconPath.isEmpty then
      let icon : ImageComponent :=
        { path := iconPath, colorShift := env.theme.textColor,
          resize := ⟨0, env.fl (env.theme.textFont.letterHeight * env.fl 1.25)⟩ }
      (row.addElement (RowElement.image icon) false).addElement (RowElement.spacer ⟨10, 0⟩) false
    else
      let label : String :=
        if iconName = "audio" then "\uf028"
        else if iconName = "keyboard" then "\uf11c"
        else if iconName = "joystick" then "\uf11b"
        else if iconName = "mouse" then "\uf124"
        else if iconName = "unknown" then "\uf1de"
        else ""
      if ¬ label.isEmpty then
        let text : TextComponent :=
          { text := label, font := env.theme.textFont, color := env.theme.textColor,
            horizontalAlignment := Alignment.ALIGN_CENTER }
        (row.addElement (RowElement.text text) false).addElement (RowElement.spacer ⟨10, 0⟩) false
      else row

/-- Modelled from the spec: `addRow`, defined in the header file: the row is appended
to the row list with its tag, the cursor moves to it when asked, and the panel is
laid out again unless the caller opts out. -/
def addRow (env : Env) (row : ComponentListRow) (setCursorHere doUpdateSize : Bool)
    (userData : String) (s : MenuComponent) : MenuComponent :=
  let list : ComponentList :=
    { s.mList with
      mEntries := s.mList.mEntries ++ [(row, userData)]
      mCursor := if setCursorHere then s.mList.mEntries.length else s.mList.mCursor }
  let s := { s with mList := list }
  if doUpdateSize then updateSize env s else s

/-- Method `addWithLabel`. The row shares the text widget, so the alignment set
after `addElement` is the alignment of the row's element. -/
def addWithLabel (env : Env) (label : String) (comp : Option Control)
    (func : Option Callback) (iconName : String) (setCursorHere : Bool)
    (s : MenuComponent) : MenuComponent :=
  let row := addMenuIcon env {} iconName
  let text : TextComponent :=
    { text := Utils.String.toUpper label, font := env.theme.textFont,
      color := env.theme.textColor }
  let text := if env.isRTL then
      { text with horizontalAlignment := Alignment.ALIGN_RIGHT } else text
  let row := row.addElement (RowElement.text text) true
  let row := match comp with
    | some c => row.addElement (RowElement.control c) false
    | none => row
  let row := match func with
    | some f => row.makeAcceptInputHandler f false
    | none => row
  addRow env row setCursorHere true "" s

/-- Method `addWithDescription`. -/
def addWithDescription (env : Env) (label description : String) (comp : Option Control)
    (func : Option Callback) (iconName : String) (setCursorHere multiLine : Bool)
    (userData : String) (doUpdateSize : Bool) (s : MenuComponent) : MenuComponent :=
  let row := addMenuIcon env {} iconName
  let (s, row) :=
    if ¬ description.isEmpty then
      let s := if ¬ multiLine then
          { s with mList := { s.mList with mUpdateType := UpdateType.UPDATE_ALWAYS } } else s
      (s, row.addElement (RowElement.multiLine
        { text := Utils.String.toUpper label, substring := description,
          multiLine := multiLine }) true)
    else
      (s, row.addElement (RowElement.text
        { text := Utils.String.toUpper label, font := env.theme.textFont,
          color := env.theme.textColor }) true)
  let row := match comp with
    | some c => row.addElement (RowElement.control c) false
    | none => row
  let row := match func with
    | some f => row.makeAcceptInputHandler f false
    | none => row
  addRow env row setCursorHere doUpdateSize userData s

/-- Method `addEntry`. The row shares the text and arrow widgets, so what is set on
them after `addElement` is what the row's elements carry. -/
def addEntry (env : Env) (name : String) (add_arrow : Bool) (func : Option Callback)
    (iconName : String) (setCursorHere onButtonRelease : Bool) (userData : String)
    (doUpdateSize : Bool) (s : MenuComponent) : MenuComponent :=
  let font := env.theme.textFont
  let color := env.theme.textColor
  let row := addMenuIcon env {} iconName
  let text : TextComponent := { text := name, font := font, color := color }
  let text := if env.isRTL then
      { text with horizontalAlignment := Alignment.ALIGN_RIGHT } else text
  let row := row.addElement (RowElement.text text) true
  let row :=
    if add_arrow then
      let arrow := makeArrow env
      let arrow := if env.isRTL then { arrow with flipX := true } else arrow
      row.addElement (RowElement.image arrow) false
    else row
  let row := match func with
    | some f => row.makeAcceptInputHandler f onButtonRelease
    | none => row
  addRow env row setCursorHere doUpdateSize userData s

end MenuComponent

/-! ## Input -/

/-- Kinds of input event. -/
inductive InputType
  | TYPE_AXIS
  | TYPE_BUTTON
  | TYPE_HAT
  | TYPE_KEY
  | TYPE_CEC_BUTTON
  | TYPE_COUNT
  deriving DecidableEq

/-- An input event. -/
structure Input where
  device : Int
  type : InputType
  id : Int
  value : Int
  configured : Bool
  deriving DecidableEq

/-- The mapping query of an input configuration. -/
structure InputConfig where
  isMappedLike : String → Input → Bool

/-- The two handlers `MenuComponent::input` forwards to, whose source is not part of
this file: each answers whether it consumed the event and leaves a new panel state. -/
structure InputHandlers where
  tabsInput : MenuComponent → InputConfig → Input → Bool × MenuComponent
  guiComponentInput : MenuComponent → InputConfig → Input → Bool × MenuComponent

namespace MenuComponent

/-- The pointer `mButtonGrid`, as the tag a grid cell would hold for it. -/
def mButtonGridPtr (s : MenuComponent) : Option Child :=
  s.mButtonGrid.map fun _ => Child.buttonGrid

/-- The guard of `MenuComponent::input`: tabs exist, at least one tab, the selected
widget is not `mButtonGrid`, and the event maps to left or right. -/
def tabsTakeInput (config : InputConfig) (input : Input) (s : MenuComponent) : Bool :=
  (match s.mTabs with
   | some tabs => decide (tabs.mTabs.length ≠ 0)
   | none => false)
  && decide (s.mGrid.getSelectedComponent ≠ mButtonGridPtr s)
  && (config.isMappedLike "left" input || config.isMappedLike "right" input)

/-- Method `input`. -/
def input (h : InputHandlers) (config : InputConfig) (input : Input) (s : MenuComponent) :
    Bool × MenuComponent :=
  if tabsTakeInput config input s then
    let ret := h.tabsInput s config input
    if input.type ≠ InputType.TYPE_HAT ∨ input.value ≠ 0 then ret
    else h.guiComponentInput ret.2 config input
  else
    h.guiComponentInput s config input

end MenuComponent

/-! ## Concrete panels -/

/-- A theme for the worked examples: no themed icons. -/
def exampleTheme : MenuTheme :=
  { titleFont := ⟨40, 48⟩, titleColor := 0x555555FF
    textFont := ⟨24, 30⟩, textColor := 0x777777FF
    textSmallFont := ⟨16, 20⟩, textSmallColor := 0x888888FF
    arrow := ":/arrow.svg", getMenuIcon := fun _ => "" }

/-- A 1280x720 left-to-right screen; every row measures 80, a subtitle 25 and a
button 120x18. Arithmetic on it is exact: the rounding is the identity. -/
def exampleEnv : Env :=
  { fl := id
    screenWidth := 1280, screenHeight := 720, fullScreenMenus := false, isRTL := false
    theme := exampleTheme
    TITLE_VERT_PADDING := 20, TITLE_WITHSUB_VERT_PADDING := 15, SUBTITLE_VERT_PADDING := 10
    textHeight := fun _ _ => 25
    buttonSize := fun _ => ⟨120, 18⟩
    getRowHeight := fun _ => 80 }

/-- Rounding to the nearest integer, halves to the even neighbour. -/
def roundHalfEven (y : ℚ) : ℤ :=
  if y - ⌊y⌋ < 1 / 2 then ⌊y⌋
  else if 1 / 2 < y - ⌊y⌋ then ⌊y⌋ + 1
  else if ⌊y⌋ % 2 = 0 then ⌊y⌋ else ⌊y⌋ + 1

/-- The rounding of a real number to a 32-bit `float` (24-bit significand, round to
nearest, ties to even) for magnitudes in the normal range: the nearest multiple of
`2 ^ (e - 23)`, where `2 ^ e` is the largest power of two not above the magnitude. -/
def roundF32 (x : ℚ) : ℚ :=
  if x = 0 then 0
  else (roundHalfEven (x / (2 : ℚ) ^ (Int.log 2 |x| - 23)) : ℚ)
         * (2 : ℚ) ^ (Int.log 2 |x| - 23)

/-- The example screen with 32-bit float rounding, every row measuring the float
10498867 / 131072 (80.1 as a float). -/
def exampleEnvFloat : Env :=
  { exampleEnv with fl := roundF32, getRowHeight := fun _ => 10498867 / 131072 }

/-- The same screen under a right-to-left locale. -/
def exampleEnvRTL : Env := { exampleEnv with isRTL := true }

/-- A panel without subtitle or tabs whose header is `letterHeight + 20` high, whose
button bar is `barHeight` high, with `rows` rows and the cap `cap`. -/
def examplePanel (letterHeight barHeight cap : ℚ) (rows : Nat) : MenuComponent :=
  { mGrid := ComponentGrid.create (1, 4)
    mHeaderGrid := ComponentGrid.create (2, 2)
    mTitle := { text := "MENU", font := ⟨letterHeight, letterHeight⟩ }
    mMaxHeight := cap
    mButtonGrid := some { ComponentGrid.create (1, 2) with mSize := ⟨120, barHeight⟩ }
    mList := { mEntries := List.replicate rows ({}, "") } }

namespace MenuComponent

/-- The greedy-prefix property of `updateSize` for header height `H`, button-bar
height `B`, cap `C` and row heights `rows`: `k` rows are added, `k` is the largest
prefix length whose running total stays under the cap, the row after it is left out,
and the panel height `height` is the running total. -/
def IsGreedyPrefix (H B C : ℚ) (rows : List ℚ) (k : Nat) (height : ℚ) : Prop :=
  k ≤ rows.length
  ∧ H + B + (rows.take k).sum < C
  ∧ (∀ j, j ≤ rows.length → H + B + (rows.take j).sum < C → j ≤ k)
  ∧ (k < rows.length → ¬ (H + B + (rows.take (k + 1)).sum < C))
  ∧ height = H + B + (rows.take k).sum

/-- The greedy property of `updateSize` on float running totals, from the running
total `start` with cap `C`: `k` rows are added, the running total stays under the cap
after each of them, the row after them would not keep it under the cap, `k` is the
largest number of rows that can be added with the running total under the cap after
each, and the panel height `height` is the running total after `k` rows. -/
def IsGreedyCut (env : Env) (start C : ℚ) (rows : List ℚ) (k : Nat) (height : ℚ) : Prop :=
  k ≤ rows.length
  ∧ (∀ j, 1 ≤ j → j ≤ k → runningTotal env start rows j < C)
  ∧ (k < rows.length → ¬ (runningTotal env start rows (k + 1) < C))
  ∧ (∀ m, m ≤ rows.length → (∀ j, 1 ≤ j → j ≤ m → runningTotal env start rows j < C) →
        m ≤ k)
  ∧ height = runningTotal env start rows k

end MenuComponent

/-- The example panel with a tab strip of one tab, 48 high. -/
def examplePanelTabs (letterHeight barHeight cap : ℚ) (rows : Nat) : MenuComponent :=
  { examplePanel letterHeight barHeight cap rows with
    mTabs := some { mTabs := [("ALL", "all")], mSize := ⟨1080, 48⟩ } }

namespace MenuComponent

/-- What the layout reads besides the button bar is the same in both panels. -/
def SameLayoutInputs (env : Env) (s t : MenuComponent) : Prop :=
  TITLE_HEIGHT env t = TITLE_HEIGHT env s ∧ t.mList = s.mList ∧ t.mTabs = s.mTabs
    ∧ t.mMaxHeight = s.mMaxHeight

end MenuComponent

/-- The header operations a caller has after construction. -/
inductive HeaderOp
  | setSubTitle (text : String)
  | setTitleImage (titleImage : Option ImageComponent) (replaceTitle : Bool)

namespace MenuComponent

/-- Run one header operation. -/
def applyHeaderOp (env : Env) (defaultReplaceTitle : Bool) (s : MenuComponent) :
    HeaderOp → MenuComponent
  | HeaderOp.setSubTitle text => setSubTitle env defaultReplaceTitle text s
  | HeaderOp.setTitleImage titleImage replaceTitle =>
    setTitleImage env titleImage replaceTitle s

/-- Run header operations in order. -/
def applyHeaderOps (env : Env) (defaultReplaceTitle : Bool) (ops : List HeaderOp)
    (s : MenuComponent) : MenuComponent :=
  ops.foldl (applyHeaderOp env defaultReplaceTitle) s

/-- What the header grid holds after the constructor and any run of header
operations. Both column percentages are stored, and they sum to 1 when the rounding
is exact. The percentage of row 0 is stored: 1 without subtitle, the float
`titleHeight / TITLE_HEIGHT` with one. For row 1 either 0 is stored or nothing is;
without subtitle it is the stored 0. -/
def HeaderInv (env : Env) (s : MenuComponent) : Prop :=
  (∃ c d, s.mHeaderGrid.mColWidths = [some c, some d] ∧ ((∀ x, env.fl x = x) → c + d = 1))
  ∧ (∃ a r, s.mHeaderGrid.mRowHeights = [some a, r]
      ∧ (r = none ∨ r = some 0)
      ∧ (s.mSubtitle = none → a = 1 ∧ r = some 0)
      ∧ (s.mSubtitle ≠ none →
          a = env.fl (fadd env s.mTitle.font.letterHeight env.TITLE_WITHSUB_VERT_PADDING
                / TITLE_HEIGHT env s)))

end MenuComponent

/-- Two `addButton` calls: a confirm button and a back button. -/
def exampleButtonCalls : List (String × String × Option Callback) :=
  [("ok", "confirm", some 0), ("back", "go back", some 1)]

/-- The panel the constructor builds on the example screen: title "Menu", no
subtitle, no tabs. -/
def exampleBuilt : MenuComponent :=
  MenuComponent.construct exampleEnv false "Menu" none "" false

/-! ## Reading a row -/

/-- The text a row element shows as a label. -/
def RowElement.labelText : RowElement → Option String
  | RowElement.text t => some t.text
  | RowElement.multiLine e => some e.text
  | _ => none

/-- The horizontal alignment of a text element. -/
def RowElement.labelAlignment : RowElement → Option Alignment
  | RowElement.text t => some t.horizontalAlignment
  | _ => none

/-- The label of a row: the element added with the resize-width flag set. -/
def ComponentListRow.label (row : ComponentListRow) : Option RowElement :=
  (row.elements.find? fun e => e.2).map fun e => e.1

/-- The trailing image of a row, when its last element is an image. -/
def ComponentListRow.trailingImage (row : ComponentListRow) : Option ImageComponent :=
  match row.elements.getLast? with
  | some (RowElement.image img, _) => some img
  | _ => none

/-- The row most recently appended to the list of a panel. -/
def MenuComponent.lastRow (s : MenuComponent) : Option ComponentListRow :=
  s.mList.mEntries.getLast?.map fun e => e.1

/-! ## Lemmas on the truncation loop -/

namespace MenuComponent

theorem runningTotal_zero (env : Env) (h : ℚ) (rows : List ℚ) :
    runningTotal env h rows 0 = h := by
  simp [runningTotal]

theorem runningTotal_cons_succ (env : Env) (h r : ℚ) (rest : List ℚ) (j : Nat) :
    runningTotal env h (r :: rest) (j + 1) = runningTotal env (fadd env h r) rest j := by
  simp [runningTotal]

theorem updateSizeLoop_shift (env : Env) (C : ℚ) (rows : List ℚ) (h : ℚ) (i : Nat) :
    updateSizeLoop env C rows h i
      = ((updateSizeLoop env C rows h 0).1, i + (updateSizeLoop env C rows h 0).2) := by
  induction rows generalizing h i with
  | nil => simp [updateSizeLoop]
  | cons r rest ih =>
    unfold updateSizeLoop
    by_cases hlt : fadd env h r < C
    · simp only [hlt, if_true]
      rw [ih (fadd env h r) (i + 1), ih (fadd env h r) (0 + 1)]
      simp only [Prod.mk.injEq, true_and]
      omega
    · simp [hlt]

theorem updateSizeLoop_count_le (env : Env) (C : ℚ) (rows : List ℚ) (h : ℚ) :
    (updateSizeLoop env C rows h 0).2 ≤ rows.length := by
  induction rows generalizing h with
  | nil => simp [updateSizeLoop]
  | cons r rest ih =>
    unfold updateSizeLoop
    by_cases hlt : fadd env h r < C
    · simp only [hlt, if_true]
      rw [updateSizeLoop_shift]
      have := ih (fadd env h r)
      simp only [List.length_cons]
      omega
    · simp [hlt]

/-- The height the loop ends with is the running total after the rows it added. -/
theorem updateSizeLoop_height (env : Env) (C : ℚ) (rows : List ℚ) (h : ℚ) :
    (updateSizeLoop env C rows h 0).1
      = runningTotal env h rows (updateSizeLoop env C rows h 0).2 := by
  induction rows generalizing h with
  | nil => simp [updateSizeLoop, runningTotal]
  | cons r rest ih =>
    unfold updateSizeLoop
    by_cases hlt : fadd env h r < C
    · simp only [hlt, if_true]
      rw [updateSizeLoop_shift]
      simp only [Nat.add_comm 1]
      rw [runningTotal_cons_succ]
      exact ih (fadd env h r)
    · simp [hlt, runningTotal]

/-- After each row the loop has added, the running total is under the cap. -/
theorem updateSizeLoop_fits (env : Env) (C : ℚ) (rows : List ℚ) (h : ℚ) (j : Nat)
    (hj : 1 ≤ j) (hjk : j ≤ (updateSizeLoop env C rows h 0).2) :
    runningTotal env h rows j < C := by
  induction rows generalizing h j with
  | nil => simp [updateSizeLoop] at hjk; omega
  | cons r rest ih =>
    unfold updateSizeLoop at hjk
    by_cases hlt : fadd env h r < C
    · simp only [hlt, if_true] at hjk
      rw [updateSizeLoop_shift] at hjk
      simp only at hjk
      obtain ⟨j, rfl⟩ : ∃ m, j = m + 1 := ⟨j - 1, by omega⟩
      rw [runningTotal_cons_succ]
      by_cases hj0 : j = 0
      · subst hj0; rw [runningTotal_zero]; exact hlt
      · exact ih (fadd env h r) j (by omega) (by omega)
    · simp [hlt] at hjk; omega

/-- The loop stops at a row only when adding it would not stay under the cap. -/
theorem updateSizeLoop_stops (env : Env) (C : ℚ) (rows : List ℚ) (h : ℚ)
    (hk : (updateSizeLoop env C rows h 0).2 < rows.length) :
    ¬ (runningTotal env h rows ((updateSizeLoop env C rows h 0).2 + 1) < C) := by
  induction rows generalizing h with
  | nil => simp at hk
  | cons r rest ih =>
    unfold updateSizeLoop at hk ⊢
    by_cases hlt : fadd env h r < C
    · simp only [hlt, if_true] at hk ⊢
      rw [updateSizeLoop_shift] at hk ⊢
      simp only [List.length_cons] at hk
      have := ih (fadd env h r) (by omega)
      have e : 0 + 1 + (updateSizeLoop env C rest (fadd env h r) 0).2 + 1
          = ((updateSizeLoop env C rest (fadd env h r) 0).2 + 1) + 1 := by omega
      simp only [e]
      rw [runningTotal_cons_succ]
      exact this
    · simp only [hlt, if_false]
      rw [runningTotal_cons_succ, runningTotal_zero]
      exact hlt

/-- With a monotone rounding that leaves floats unchanged, running totals of
non-negative rows from a float grow with the number of rows. -/
theorem runningTotal_mono (env : Env) (hmono : ∀ x y, x ≤ y → env.fl x ≤ env.fl y)
    (hidem : ∀ x, env.fl (env.fl x) = env.fl x) (rows : List ℚ)
    (hnn : ∀ r ∈ rows, 0 ≤ r) (h : ℚ) (hfloat : env.fl h = h) (j k : Nat) (hjk : j ≤ k) :
    runningTotal env h rows j ≤ runningTotal env h rows k := by
  induction rows generalizing h j k with
  | nil => simp [runningTotal]
  | cons r rest ih =>
    have hr : 0 ≤ r := hnn r (List.mem_cons_self _ _)
    have hstep : h ≤ fadd env h r := by
      have := hmono h (h + r) (by linarith)
      rw [hfloat] at this
      exact this
    have hfloat2 : env.fl (fadd env h r) = fadd env h r := hidem _
    have hrest : ∀ x ∈ rest, 0 ≤ x := fun x hx => hnn x (List.mem_cons_of_mem _ hx)
    cases j with
    | zero =>
      rw [runningTotal_zero]
      cases k with
      | zero => rw [runningTotal_zero]
      | succ k =>
        rw [runningTotal_cons_succ]
        have := ih hrest (fadd env h r) hfloat2 0 k (by omega)
        rw [runningTotal_zero] at this
        exact le_trans hstep this
    | succ j =>
      obtain ⟨k, rfl⟩ : ∃ m, k = m + 1 := ⟨k - 1, by omega⟩
      rw [runningTotal_cons_succ, runningTotal_cons_succ]
      exact ih hrest (fadd env h r) hfloat2 j k (by omega)

/-- Without rounding the running total is the start plus the exact prefix sum. -/
theorem runningTotal_exact (env : Env) (hexact : ∀ x, env.fl x = x) (h : ℚ)
    (rows : List ℚ) (k : Nat) :
    runningTotal env h rows k = h + (rows.take k).sum := by
  have hfold : ∀ (l : List ℚ) (a : ℚ), l.foldl (fadd env) a = a + l.sum := by
    intro l
    induction l with
    | nil => intro a; simp
    | cons r rest ih =>
      intro a
      simp only [List.foldl_cons, List.sum_cons, ih]
      unfold fadd
      rw [hexact]
      ring
  unfold runningTotal
  exact hfold _ _

/-! ## updateSize -/

theorem alignTitle_mSize (env : Env) (s : MenuComponent) : (alignTitle env s).mSize = s.mSize := by
  unfold alignTitle
  split <;> rfl

theorem updateSize_height (env : Env) (s : MenuComponent) (hfs : env.fullScreenMenus = false) :
    (updateSize env s).mSize.y = computedHeight env s := by
  simp [updateSize, hfs, alignTitle_mSize]

/-- C1, as amended: with full-screen menus off and a natural height above the cap,
the rows whose height the loop adds are the longest run of leading rows that keeps
the float running total (header + button bar, then each row added in list order,
every sum rounded to float) under the cap after each row; the next row is left out
even if it would fit partially, and the panel height is the running total after the
rows added. For a monotone rounding that leaves floats unchanged and non-negative
row heights: when header + button bar is under the cap the number of rows added is
the largest `k` whose running total is under the cap, otherwise no row is added and
the height is header + button bar. When no sum needs rounding, the row heights are
non-negative and header + button bar is under the cap, this is the greedy-prefix
property on exact sums (`IsGreedyPrefix`). -/
theorem updateSize_greedy_rows (env : Env) (s : MenuComponent)
    (hfs : env.fullScreenMenus = false)
    (hover : maxHeight env s < naturalHeight env s) :
    IsGreedyCut env (fadd env (TITLE_HEIGHT env s) (getButtonGridHeight env s))
        (maxHeight env s) (rowHeights env s) (rowsAdded env s) (updateSize env s).mSize.y
    ∧ ((∀ x y, x ≤ y → env.fl x ≤ env.fl y) → (∀ x, env.fl (env.fl x) = env.fl x) →
        (∀ r ∈ rowHeights env s, 0 ≤ r) →
        (fadd env (TITLE_HEIGHT env s) (getButtonGridHeight env s) < maxHeight env s →
          runningTotal env (fadd env (TITLE_HEIGHT env s) (getButtonGridHeight env s))
              (rowHeights env s) (rowsAdded env s) < maxHeight env s
          ∧ ∀ j, j ≤ (rowHeights env s).length →
              runningTotal env (fadd env (TITLE_HEIGHT env s) (getButtonGridHeight env s))
                (rowHeights env s) j < maxHeight env s → j ≤ rowsAdded env s)
        ∧ (¬ (fadd env (TITLE_HEIGHT env s) (getButtonGridHeight env s) < maxHeight env s) →
            rowsAdded env s = 0
            ∧ (updateSize env s).mSize.y
                = fadd env (TITLE_HEIGHT env s) (getButtonGridHeight env s)))
    ∧ ((∀ x, env.fl x = x) → (∀ r ∈ rowHeights env s, 0 ≤ r) →
        TITLE_HEIGHT env s + getButtonGridHeight env s < maxHeight env s →
        IsGreedyPrefix (TITLE_HEIGHT env s) (getButtonGridHeight env s) (maxHeight env s)
          (rowHeights env s) (rowsAdded env s) (updateSize env s).mSize.y) := by
  have hh : (updateSize env s).mSize.y
      = runningTotal env (fadd env (TITLE_HEIGHT env s) (getButtonGridHeight env s))
          (rowHeights env s) (rowsAdded env s) := by
    rw [updateSize_height env s hfs]
    unfold computedHeight
    simp only [gt_iff_lt, hover, if_true]
    exact updateSizeLoop_height _ _ _ _
  have hle : rowsAdded env s ≤ (rowHeights env s).length := updateSizeLoop_count_le _ _ _ _
  have hfits : ∀ j, 1 ≤ j → j ≤ rowsAdded env s →
      runningTotal env (fadd env (TITLE_HEIGHT env s) (getButtonGridHeight env s))
        (rowHeights env s) j < maxHeight env s :=
    fun j h1 h2 => updateSizeLoop_fits _ _ _ _ j h1 h2
  have hstop : rowsAdded env s < (rowHeights env s).length →
      ¬ (runningTotal env (fadd env (TITLE_HEIGHT env s) (getButtonGridHeight env s))
          (rowHeights env s) (rowsAdded env s + 1) < maxHeight env s) :=
    updateSizeLoop_stops _ _ _ _
  have hmax : (∀ x y, x ≤ y → env.fl x ≤ env.fl y) → (∀ x, env.fl (env.fl x) = env.fl x) →
      (∀ r ∈ rowHeights env s, 0 ≤ r) →
      (fadd env (TITLE_HEIGHT env s) (getButtonGridHeight env s) < maxHeight env s →
        runningTotal env (fadd env (TITLE_HEIGHT env s) (getButtonGridHeight env s))
            (rowHeights env s) (rowsAdded env s) < maxHeight env s
        ∧ ∀ j, j ≤ (rowHeights env s).length →
            runningTotal env (fadd env (TITLE_HEIGHT env s) (getButtonGridHeight env s))
              (rowHeights env s) j < maxHeight env s → j ≤ rowsAdded env s)
      ∧ (¬ (fadd env (TITLE_HEIGHT env s) (getButtonGridHeight env s) < maxHeight env s) →
          rowsAdded env s = 0
          ∧ (updateSize env s).mSize.y
              = fadd env (TITLE_HEIGHT env s) (getButtonGridHeight env s)) := by
    intro hmono hidem hnn
    have hfloat : env.fl (fadd env (TITLE_HEIGHT env s) (getButtonGridHeight env s))
        = fadd env (TITLE_HEIGHT env s) (getButtonGridHeight env s) := hidem _
    constructor
    · intro hfit
      constructor
      · by_cases hk : rowsAdded env s = 0
        · rw [hk, runningTotal_zero]; exact hfit
        · exact hfits _ (by omega) (le_refl _)
      · intro j hj hjfit
        by_contra hcon
        apply hstop (by omega)
        have := runningTotal_mono env hmono hidem (rowHeights env s) hnn _ hfloat
          (rowsAdded env s + 1) j (by omega)
        exact lt_of_le_of_lt this hjfit
    · intro hnfit
      have hk : rowsAdded env s = 0 := by
        by_contra hk
        apply hnfit
        have h1 := hfits (rowsAdded env s) (by omega) (le_refl _)
        have h0 := runningTotal_mono env hmono hidem (rowHeights env s) hnn _ hfloat
          0 (rowsAdded env s) (by omega)
        rw [runningTotal_zero] at h0
        exact lt_of_le_of_lt h0 h1
      refine ⟨hk, ?_⟩
      rw [hh, hk, runningTotal_zero]
  refine ⟨⟨hle, hfits, hstop, ?_, hh⟩, hmax, ?_⟩
  · intro m hm hall
    by_contra hcon
    exact hstop (by omega) (hall (rowsAdded env s + 1) (by omega) (by omega))
  · intro hexact hnn hfit
    have hadd : fadd env (TITLE_HEIGHT env s) (getButtonGridHeight env s)
        = TITLE_HEIGHT env s + getButtonGridHeight env s := hexact _
    have hrt : ∀ k, runningTotal env
        (fadd env (TITLE_HEIGHT env s) (getButtonGridHeight env s)) (rowHeights env s) k
        = TITLE_HEIGHT env s + getButtonGridHeight env s + ((rowHeights env s).take k).sum := by
      intro k
      rw [runningTotal_exact env hexact, hadd]
    obtain ⟨hin, hlargest⟩ := (hmax (fun x y hxy => by rw [hexact, hexact]; exact hxy)
      (fun x => by rw [hexact]) hnn).1 (by rw [hadd]; exact hfit)
    refine ⟨hle, ?_, ?_, ?_, ?_⟩
    · rw [← hrt]; exact hin
    · intro j hj hjfit
      exact hlargest j hj (by rw [hrt]; exact hjfit)
    · intro hlt
      rw [← hrt]
      exact hstop hlt
    · rw [hh, hrt]

end MenuComponent

/-! ### 32-bit float rounding at the values of the rounding example -/

theorem log2_eq (x : ℚ) (e : ℤ) (hx : 0 < x) (h1 : (2 : ℚ) ^ e ≤ x)
    (h2 : x < (2 : ℚ) ^ (e + 1)) : Int.log 2 x = e := by
  have ha : e ≤ Int.log 2 x :=
    (Int.zpow_le_iff_le_log (by norm_num) hx).mp (by exact_mod_cast h1)
  have hb : Int.log 2 x < e + 1 :=
    (Int.lt_zpow_iff_log_lt (by norm_num) hx).mp (by exact_mod_cast h2)
  omega

theorem roundF32_pos (x : ℚ) (e : ℤ) (hx : 0 < x) (h1 : (2 : ℚ) ^ e ≤ x)
    (h2 : x < (2 : ℚ) ^ (e + 1)) :
    roundF32 x = (roundHalfEven (x / (2 : ℚ) ^ (e - 23)) : ℚ) * (2 : ℚ) ^ (e - 23) := by
  unfold roundF32
  rw [if_neg (ne_of_gt hx), abs_of_pos hx, log2_eq x e hx h1 h2]

theorem roundHalfEven_eq (y : ℚ) (n : ℤ) (h : y = n) : roundHalfEven y = n := by
  subst h
  simp [roundHalfEven]

theorem roundHalfEven_tie (y : ℚ) (n : ℤ) (h : y = n + 1 / 2) :
    roundHalfEven y = if n % 2 = 0 then n else n + 1 := by
  have hf : ⌊y⌋ = n := by
    rw [Int.floor_eq_iff]; constructor <;> rw [h] <;> norm_num
  unfold roundHalfEven
  rw [hf, h]
  norm_num

theorem roundF32_60 : roundF32 60 = 60 := by
  rw [roundF32_pos 60 5 (by norm_num) (by norm_num) (by norm_num),
    roundHalfEven_eq _ (60 * 2 ^ 18) (by norm_num)]
  norm_num

theorem roundF32_110 : roundF32 110 = 110 := by
  rw [roundF32_pos 110 6 (by norm_num) (by norm_num) (by norm_num),
    roundHalfEven_eq _ (110 * 2 ^ 17) (by norm_num)]
  norm_num

/-- The row height 10498867 / 131072 is a float. -/
theorem roundF32_row : roundF32 (10498867 / 131072) = 10498867 / 131072 := by
  rw [roundF32_pos _ 6 (by norm_num) (by norm_num) (by norm_num),
    roundHalfEven_eq _ 10498867 (by norm_num)]
  norm_num

/-- The sum 60 + 10498867 / 131072 lies halfway between two floats and rounds to the
even one. -/
theorem roundF32_header_row : roundF32 (18363187 / 131072) = 4590797 / 32768 := by
  rw [roundF32_pos _ 7 (by norm_num) (by norm_num) (by norm_num),
    roundHalfEven_tie _ 9181593 (by norm_num)]
  norm_num

/-- The cap 6229197 / 32768 is a float. -/
theorem roundF32_cap : roundF32 (6229197 / 32768) = 6229197 / 32768 := by
  rw [roundF32_pos _ 7 (by norm_num) (by norm_num) (by norm_num),
    roundHalfEven_eq _ 12458394 (by norm_num)]
  norm_num

theorem roundF32_natural : roundF32 (6294733 / 32768) = 6294733 / 32768 := by
  rw [roundF32_pos _ 7 (by norm_num) (by norm_num) (by norm_num),
    roundHalfEven_eq _ 12589466 (by norm_num)]
  norm_num

/-- The sum 110 + 10498867 / 131072 lies halfway between two floats and rounds to the
even one, which is the cap. -/
theorem roundF32_start_row : roundF32 (24916787 / 131072) = 6229197 / 32768 := by
  rw [roundF32_pos _ 7 (by norm_num) (by norm_num) (by norm_num),
    roundHalfEven_tie _ 12458393 (by norm_num)]
  norm_num

namespace MenuComponent

/-! ### Values on the example panels -/

theorem exampleEnv_fadd (a b : ℚ) : fadd exampleEnv a b = a + b := rfl

theorem exampleEnv_foldl_fadd (rows : List ℚ) (h : ℚ) :
    rows.foldl (fadd exampleEnv) h = h + rows.sum := by
  induction rows generalizing h with
  | nil => simp
  | cons r rest ih => simp only [List.foldl_cons, List.sum_cons, ih, exampleEnv_fadd]; ring

theorem exampleEnv_runningTotal (h : ℚ) (rows : List ℚ) (k : Nat) :
    runningTotal exampleEnv h rows k = h + (rows.take k).sum := by
  unfold runningTotal
  exact exampleEnv_foldl_fadd _ _

theorem examplePanel_TITLE_HEIGHT (L B C : ℚ) (n : Nat) :
    TITLE_HEIGHT exampleEnv (examplePanel L B C n) = L + 20 := by
  simp [TITLE_HEIGHT, fadd, exampleEnv, examplePanel]

theorem examplePanel_getButtonGridHeight (L B C : ℚ) (n : Nat) :
    getButtonGridHeight exampleEnv (examplePanel L B C n) = B := by
  simp [getButtonGridHeight, examplePanel]

theorem examplePanel_rowHeights (L B C : ℚ) (n : Nat) :
    rowHeights exampleEnv (examplePanel L B C n) = List.replicate n 80 := by
  simp [rowHeights, exampleEnv, examplePanel]

theorem examplePanel_maxHeight (L B C : ℚ) (n : Nat) :
    maxHeight exampleEnv (examplePanel L B C n) = if C ≤ 0 then 540 else C := by
  simp only [maxHeight, exampleEnv, examplePanel, id]
  norm_num

theorem examplePanel_naturalHeight (L B C : ℚ) (n : Nat) :
    naturalHeight exampleEnv (examplePanel L B C n)
      = L + 20 + (List.replicate n (80 : ℚ)).sum + B + 2 := by
  unfold naturalHeight getTotalRowHeight
  rw [examplePanel_TITLE_HEIGHT, examplePanel_getButtonGridHeight, examplePanel_rowHeights,
    exampleEnv_foldl_fadd]
  simp [examplePanel, exampleEnv_fadd]

/-- C1, witness: the worked example of the specification, cap 400, header 60, button
bar 50 and four rows of 80: three rows are added and the panel is 350 high. -/
theorem updateSize_greedy_rows_witness :
    exampleEnv.fullScreenMenus = false
    ∧ maxHeight exampleEnv (examplePanel 40 50 400 4)
        < naturalHeight exampleEnv (examplePanel 40 50 400 4)
    ∧ IsGreedyCut exampleEnv
        (fadd exampleEnv (TITLE_HEIGHT exampleEnv (examplePanel 40 50 400 4))
          (getButtonGridHeight exampleEnv (examplePanel 40 50 400 4)))
        (maxHeight exampleEnv (examplePanel 40 50 400 4))
        (rowHeights exampleEnv (examplePanel 40 50 400 4))
        (rowsAdded exampleEnv (examplePanel 40 50 400 4))
        (updateSize exampleEnv (examplePanel 40 50 400 4)).mSize.y
    ∧ IsGreedyPrefix (TITLE_HEIGHT exampleEnv (examplePanel 40 50 400 4))
        (getButtonGridHeight exampleEnv (examplePanel 40 50 400 4))
        (maxHeight exampleEnv (examplePanel 40 50 400 4))
        (rowHeights exampleEnv (examplePanel 40 50 400 4))
        (rowsAdded exampleEnv (examplePanel 40 50 400 4))
        (updateSize exampleEnv (examplePanel 40 50 400 4)).mSize.y
    ∧ TITLE_HEIGHT exampleEnv (examplePanel 40 50 400 4) = 60
    ∧ getButtonGridHeight exampleEnv (examplePanel 40 50 400 4) = 50
    ∧ maxHeight exampleEnv (examplePanel 40 50 400 4) = 400
    ∧ rowHeights exampleEnv (examplePanel 40 50 400 4) = [80, 80, 80, 80]
    ∧ rowsAdded exampleEnv (examplePanel 40 50 400 4) = 3
    ∧ (updateSize exampleEnv (examplePanel 40 50 400 4)).mSize.y = 350 := by
  have hT : TITLE_HEIGHT exampleEnv (examplePanel 40 50 400 4) = 60 := by
    rw [examplePanel_TITLE_HEIGHT]; norm_num
  have hB := examplePanel_getButtonGridHeight 40 50 400 4
  have hC : maxHeight exampleEnv (examplePanel 40 50 400 4) = 400 := by
    rw [examplePanel_maxHeight]; norm_num
  have hR : rowHeights exampleEnv (examplePanel 40 50 400 4) = [80, 80, 80, 80] := by
    rw [examplePanel_rowHeights]; rfl
  have hN : naturalHeight exampleEnv (examplePanel 40 50 400 4) = 432 := by
    rw [examplePanel_naturalHeight]; norm_num [List.replicate]
  have hover : maxHeight exampleEnv (examplePanel 40 50 400 4)
      < naturalHeight exampleEnv (examplePanel 40 50 400 4) := by
    rw [hC, hN]; norm_num
  have hK : rowsAdded exampleEnv (examplePanel 40 50 400 4) = 3 := by
    unfold rowsAdded
    rw [hT, hB, hC, hR]
    simp [updateSizeLoop, exampleEnv_fadd]; norm_num
  have hH : (updateSize exampleEnv (examplePanel 40 50 400 4)).mSize.y = 350 := by
    rw [updateSize_height _ _ rfl]
    unfold computedHeight
    rw [hT, hB, hC, hR, hN]
    simp [updateSizeLoop, exampleEnv_fadd]; norm_num
  have hnn : ∀ r ∈ rowHeights exampleEnv (examplePanel 40 50 400 4), 0 ≤ r := by
    rw [hR]
    intro r hr
    simp only [List.mem_cons, List.mem_singleton, List.not_mem_nil, or_false, or_self] at hr
    rw [hr]; norm_num
  have hfit : TITLE_HEIGHT exampleEnv (examplePanel 40 50 400 4)
      + getButtonGridHeight exampleEnv (examplePanel 40 50 400 4)
      < maxHeight exampleEnv (examplePanel 40 50 400 4) := by
    rw [hT, hB, hC]; norm_num
  exact ⟨rfl, hover,
    (updateSize_greedy_rows exampleEnv (examplePanel 40 50 400 4) rfl hover).1,
    (updateSize_greedy_rows exampleEnv (examplePanel 40 50 400 4) rfl hover).2.2
      (fun _ => rfl) hnn hfit,
    hT, hB, hC, hR, hK, hH⟩

/-- C1, counterexample, in two parts. First: header 300, button bar 200, cap 400 and
one row of 80 (all sums exact): the natural height 582 exceeds the cap, the loop
adds no row and the panel is 500 high, but no prefix length at all keeps header +
button bar + prefix under the cap. Second, with 32-bit floats: header 60, button bar
50, cap 6229197 / 32768 and one row of 10498867 / 131072: the exact sum 110 + row is
under the cap, so the largest prefix under the cap is 1, but the float sum rounds to
the cap, the loop adds no row and the panel is 110 high. -/
theorem updateSize_greedy_rows_counterexample :
    (exampleEnv.fullScreenMenus = false
      ∧ (∀ r ∈ rowHeights exampleEnv (examplePanel 280 200 400 1), 0 ≤ r)
      ∧ maxHeight exampleEnv (examplePanel 280 200 400 1)
          < naturalHeight exampleEnv (examplePanel 280 200 400 1)
      ∧ TITLE_HEIGHT exampleEnv (examplePanel 280 200 400 1) = 300
      ∧ getButtonGridHeight exampleEnv (examplePanel 280 200 400 1) = 200
      ∧ maxHeight exampleEnv (examplePanel 280 200 400 1) = 400
      ∧ rowHeights exampleEnv (examplePanel 280 200 400 1) = [80]
      ∧ rowsAdded exampleEnv (examplePanel 280 200 400 1) = 0
      ∧ (updateSize exampleEnv (examplePanel 280 200 400 1)).mSize.y = 500
      ∧ (∀ k height, ¬ IsGreedyPrefix 300 200 400 [80] k height))
    ∧ (exampleEnvFloat.fullScreenMenus = false
      ∧ (∀ r ∈ rowHeights exampleEnvFloat (examplePanel 40 50 (6229197 / 32768) 1), 0 ≤ r)
      ∧ maxHeight exampleEnvFloat (examplePanel 40 50 (6229197 / 32768) 1)
          < naturalHeight exampleEnvFloat (examplePanel 40 50 (6229197 / 32768) 1)
      ∧ TITLE_HEIGHT exampleEnvFloat (examplePanel 40 50 (6229197 / 32768) 1) = 60
      ∧ getButtonGridHeight exampleEnvFloat (examplePanel 40 50 (6229197 / 32768) 1) = 50
      ∧ maxHeight exampleEnvFloat (examplePanel 40 50 (6229197 / 32768) 1)
          = 6229197 / 32768
      ∧ rowHeights exampleEnvFloat (examplePanel 40 50 (6229197 / 32768) 1)
          = [10498867 / 131072]
      ∧ (60 : ℚ) + 50 + 10498867 / 131072 < 6229197 / 32768
      ∧ rowsAdded exampleEnvFloat (examplePanel 40 50 (6229197 / 32768) 1) = 0
      ∧ (updateSize exampleEnvFloat (examplePanel 40 50 (6229197 / 32768) 1)).mSize.y = 110
      ∧ ¬ IsGreedyPrefix 60 50 (6229197 / 32768) [10498867 / 131072] 0 110) := by
  constructor
  · have hT : TITLE_HEIGHT exampleEnv (examplePanel 280 200 400 1) = 300 := by
      rw [examplePanel_TITLE_HEIGHT]; norm_num
    have hB := examplePanel_getButtonGridHeight 280 200 400 1
    have hC : maxHeight exampleEnv (examplePanel 280 200 400 1) = 400 := by
      rw [examplePanel_maxHeight]; norm_num
    have hR : rowHeights exampleEnv (examplePanel 280 200 400 1) = [80] := by
      rw [examplePanel_rowHeights]; rfl
    have hN : naturalHeight exampleEnv (examplePanel 280 200 400 1) = 582 := by
      rw [examplePanel_naturalHeight]; norm_num [List.replicate]
    have hK : rowsAdded exampleEnv (examplePanel 280 200 400 1) = 0 := by
      unfold rowsAdded
      rw [hT, hB, hC, hR]
      simp [updateSizeLoop, exampleEnv_fadd]; norm_num
    have hH : (updateSize exampleEnv (examplePanel 280 200 400 1)).mSize.y = 500 := by
      rw [updateSize_height _ _ rfl]
      unfold computedHeight
      rw [hT, hB, hC, hR, hN]
      simp [updateSizeLoop, exampleEnv_fadd]; norm_num
    have hno : ∀ k height, ¬ IsGreedyPrefix 300 200 400 [80] k height := by
      intro k height h
      have h2 := h.2.1
      have h0 : (0 : ℚ) ≤ (List.take k [(80 : ℚ)]).sum := by
        apply List.sum_nonneg
        intro x hx
        have := List.mem_of_mem_take hx
        simp at this
        rw [this]; norm_num
      linarith
    refine ⟨rfl, ?_, ?_, hT, hB, hC, hR, hK, hH, hno⟩
    · rw [hR]; intro r hr; simp at hr; rw [hr]; norm_num
    · rw [hC, hN]; norm_num
  · have hfl : ∀ a b, fadd exampleEnvFloat a b = roundF32 (a + b) := fun _ _ => rfl
    have hT : TITLE_HEIGHT exampleEnvFloat (examplePanel 40 50 (6229197 / 32768) 1) = 60 := by
      simp only [TITLE_HEIGHT, examplePanel, fadd, exampleEnvFloat, exampleEnv]
      norm_num [roundF32_60]
    have hB : getButtonGridHeight exampleEnvFloat (examplePanel 40 50 (6229197 / 32768) 1)
        = 50 := by
      simp [getButtonGridHeight, examplePanel]
    have hC : maxHeight exampleEnvFloat (examplePanel 40 50 (6229197 / 32768) 1)
        = 6229197 / 32768 := by
      simp only [maxHeight, examplePanel]
      norm_num
    have hR : rowHeights exampleEnvFloat (examplePanel 40 50 (6229197 / 32768) 1)
        = [10498867 / 131072] := by
      simp [rowHeights, exampleEnvFloat, examplePanel]
    have hS : fadd exampleEnvFloat 60 50 = 110 := by
      rw [hfl]; norm_num [roundF32_110]
    have hN : naturalHeight exampleEnvFloat (examplePanel 40 50 (6229197 / 32768) 1)
        = 6294733 / 32768 := by
      unfold naturalHeight getTotalRowHeight
      rw [hT, hB, hR]
      simp only [examplePanel, List.foldl_cons, List.foldl_nil, hfl]
      norm_num [roundF32_row, roundF32_header_row, roundF32_cap, roundF32_natural]
    have hK : rowsAdded exampleEnvFloat (examplePanel 40 50 (6229197 / 32768) 1) = 0 := by
      unfold rowsAdded
      rw [hT, hB, hC, hR, hS]
      simp only [updateSizeLoop, hfl]
      norm_num [roundF32_start_row]
    have hH : (updateSize exampleEnvFloat (examplePanel 40 50 (6229197 / 32768) 1)).mSize.y
        = 110 := by
      rw [updateSize_height _ _ rfl]
      unfold computedHeight
      rw [hT, hB, hC, hR, hN, hS]
      simp only [updateSizeLoop, hfl]
      norm_num [roundF32_start_row]
    refine ⟨rfl, ?_, ?_, hT, hB, hC, hR, by norm_num, hK, hH, ?_⟩
    · rw [hR]; intro r hr; simp at hr; rw [hr]; norm_num
    · rw [hC, hN]; norm_num
    · intro h
      have h3 := h.2.2.1 1 (by simp) (by norm_num)
      omega

/-- C2, as amended: with full-screen menus off, the panel height that `updateSize`
sets is at most the larger of the cap and header + button-bar height (their float
sum); it is at most the cap whenever header + button-bar height is. -/
theorem updateSize_height_le_cap (env : Env) (s : MenuComponent)
    (hfs : env.fullScreenMenus = false) :
    (updateSize env s).mSize.y
        ≤ max (maxHeight env s) (fadd env (TITLE_HEIGHT env s) (getButtonGridHeight env s))
    ∧ (fadd env (TITLE_HEIGHT env s) (getButtonGridHeight env s) ≤ maxHeight env s →
        (updateSize env s).mSize.y ≤ maxHeight env s) := by
  have key : (updateSize env s).mSize.y ≤ maxHeight env s
      ∨ (updateSize env s).mSize.y
          = fadd env (TITLE_HEIGHT env s) (getButtonGridHeight env s) := by
    rw [updateSize_height env s hfs]
    unfold computedHeight
    by_cases hover : naturalHeight env s > maxHeight env s
    · simp only [hover, if_true]
      rw [updateSizeLoop_height]
      by_cases hk : (updateSizeLoop env (maxHeight env s) (rowHeights env s)
          (fadd env (TITLE_HEIGHT env s) (getButtonGridHeight env s)) 0).2 = 0
      · right
        rw [hk, runningTotal_zero]
      · left
        exact le_of_lt (updateSizeLoop_fits _ _ _ _ _ (by omega) (le_refl _))
    · simp only [hover, if_false]
      left
      exact not_lt.mp hover
  constructor
  · rcases key with h | h
    · exact le_trans h (le_max_left _ _)
    · rw [h]; exact le_max_right _ _
  · intro hfit
    rcases key with h | h
    · exact h
    · rw [h]; exact hfit

/-- C2, witness: cap 400, header 60, button bar 50, four rows of 80: the panel is
350 high. -/
theorem updateSize_height_le_cap_witness :
    exampleEnv.fullScreenMenus = false
    ∧ TITLE_HEIGHT exampleEnv (examplePanel 40 50 400 4)
        + getButtonGridHeight exampleEnv (examplePanel 40 50 400 4)
        ≤ maxHeight exampleEnv (examplePanel 40 50 400 4)
    ∧ (updateSize exampleEnv (examplePanel 40 50 400 4)).mSize.y
        ≤ maxHeight exampleEnv (examplePanel 40 50 400 4) := by
  have hfit : TITLE_HEIGHT exampleEnv (examplePanel 40 50 400 4)
      + getButtonGridHeight exampleEnv (examplePanel 40 50 400 4)
      ≤ maxHeight exampleEnv (examplePanel 40 50 400 4) := by
    rw [examplePanel_TITLE_HEIGHT, examplePanel_getButtonGridHeight, examplePanel_maxHeight]
    norm_num
  exact ⟨rfl, hfit,
    (updateSize_height_le_cap exampleEnv (examplePanel 40 50 400 4) rfl).2 hfit⟩

/-- C2, counterexample: on a 720-high screen with `mMaxHeight` unset the cap is 540;
with a header of 320, a button bar of 250 and two rows of 80 the panel is set 570
high, above the cap. -/
theorem updateSize_height_le_cap_counterexample :
    exampleEnv.fullScreenMenus = false
    ∧ (examplePanel 300 250 0 2).mMaxHeight = 0
    ∧ maxHeight exampleEnv (examplePanel 300 250 0 2) = exampleEnv.screenHeight * 0.75
    ∧ maxHeight exampleEnv (examplePanel 300 250 0 2) = 540
    ∧ (updateSize exampleEnv (examplePanel 300 250 0 2)).mSize.y = 570
    ∧ ¬ ((updateSize exampleEnv (examplePanel 300 250 0 2)).mSize.y
          ≤ maxHeight exampleEnv (examplePanel 300 250 0 2)) := by
  have hT : TITLE_HEIGHT exampleEnv (examplePanel 300 250 0 2) = 320 := by
    rw [examplePanel_TITLE_HEIGHT]; norm_num
  have hB := examplePanel_getButtonGridHeight 300 250 0 2
  have hC : maxHeight exampleEnv (examplePanel 300 250 0 2) = 540 := by
    rw [examplePanel_maxHeight]; norm_num
  have hR : rowHeights exampleEnv (examplePanel 300 250 0 2) = [80, 80] := by
    rw [examplePanel_rowHeights]; rfl
  have hN : naturalHeight exampleEnv (examplePanel 300 250 0 2) = 732 := by
    rw [examplePanel_naturalHeight]; norm_num [List.replicate]
  have hH : (updateSize exampleEnv (examplePanel 300 250 0 2)).mSize.y = 570 := by
    rw [updateSize_height _ _ rfl]
    unfold computedHeight
    rw [hT, hB, hC, hR, hN]
    simp [updateSizeLoop, exampleEnv_fadd]; norm_num
  refine ⟨rfl, rfl, ?_, hC, hH, ?_⟩
  · rw [hC]; simp only [exampleEnv]; norm_num
  · rw [hH, hC]; norm_num

/-- The natural height in exact arithmetic. -/
theorem naturalHeight_exact (env : Env) (s : MenuComponent) (hexact : ∀ x, env.fl x = x) :
    naturalHeight env s
        = TITLE_HEIGHT env s + (rowHeights env s).sum + getButtonGridHeight env s + 2
          + (match s.mTabs with
             | some tabs => if tabs.mTabs.length ≠ 0 then tabs.mSize.y else 0
             | none => 0) := by
  have hadd : ∀ a b, fadd env a b = a + b := fun a b => hexact _
  have hfold : ∀ (rows : List ℚ) (h : ℚ), rows.foldl (fadd env) h = h + rows.sum := by
    intro rows
    induction rows with
    | nil => intro h; simp
    | cons r rest ih => intro h; simp only [List.foldl_cons, List.sum_cons, ih, hadd]; ring
  unfold naturalHeight getTotalRowHeight
  simp only [hadd, hfold, zero_add]
  cases s.mTabs with
  | none => simp
  | some tabs =>
    by_cases ht : tabs.mTabs.length ≠ 0
    · simp [ht]
    · simp [ht]

/-- C3: with full-screen menus off, the natural height is header height + the sum of
all row heights + button-bar height + 2, plus the tab-strip height exactly when a tab
strip exists with at least one tab, each `+` a float addition in that order (so
exactly that sum when no sum needs rounding); whenever it is at most the cap, the
panel height is set to exactly the natural height. -/
theorem updateSize_natural_height (env : Env) (s : MenuComponent)
    (hfs : env.fullScreenMenus = false) :
    naturalHeight env s
        = (match s.mTabs with
           | some tabs =>
             if tabs.mTabs.length ≠ 0 then
               fadd env (fadd env (fadd env (fadd env (TITLE_HEIGHT env s)
                 (getTotalRowHeight env s)) (getButtonGridHeight env s)) 2) tabs.mSize.y
             else
               fadd env (fadd env (fadd env (TITLE_HEIGHT env s)
                 (getTotalRowHeight env s)) (getButtonGridHeight env s)) 2
           | none =>
             fadd env (fadd env (fadd env (TITLE_HEIGHT env s)
               (getTotalRowHeight env s)) (getButtonGridHeight env s)) 2)
    ∧ getTotalRowHeight env s = (rowHeights env s).foldl (fadd env) 0
    ∧ ((∀ x, env.fl x = x) →
        naturalHeight env s
          = TITLE_HEIGHT env s + (rowHeights env s).sum + getButtonGridHeight env s + 2
            + (match s.mTabs with
               | some tabs => if tabs.mTabs.length ≠ 0 then tabs.mSize.y else 0
               | none => 0))
    ∧ (naturalHeight env s ≤ maxHeight env s →
        (updateSize env s).mSize.y = naturalHeight env s) := by
  refine ⟨?_, rfl, naturalHeight_exact env s, ?_⟩
  · unfold naturalHeight
    cases s.mTabs <;> rfl
  · intro hle
    rw [updateSize_height env s hfs]
    unfold computedHeight
    simp [not_lt.mpr hle]

/-- C3, witness: header 60, four rows of 80, button bar 50 and a tab strip 48 high
under the default cap 540: the natural height is 60 + 320 + 50 + 2 + 48 = 480 and
the panel is 480 high. -/
theorem updateSize_natural_height_witness :
    exampleEnv.fullScreenMenus = false
    ∧ naturalHeight exampleEnv (examplePanelTabs 40 50 0 4) = 60 + (80 + 80 + 80 + 80) + 50 + 2 + 48
    ∧ naturalHeight exampleEnv (examplePanelTabs 40 50 0 4)
        ≤ maxHeight exampleEnv (examplePanelTabs 40 50 0 4)
    ∧ (updateSize exampleEnv (examplePanelTabs 40 50 0 4)).mSize.y
        = naturalHeight exampleEnv (examplePanelTabs 40 50 0 4) := by
  have hN : naturalHeight exampleEnv (examplePanelTabs 40 50 0 4)
      = 60 + (80 + 80 + 80 + 80) + 50 + 2 + 48 := by
    rw [(updateSize_natural_height exampleEnv (examplePanelTabs 40 50 0 4) rfl).2.2.1
      (fun _ => rfl)]
    simp [examplePanelTabs, examplePanel, TITLE_HEIGHT, fadd, getButtonGridHeight, rowHeights,
      exampleEnv]
    norm_num
  have hC : maxHeight exampleEnv (examplePanelTabs 40 50 0 4) = 540 := by
    simp only [maxHeight, exampleEnv, examplePanelTabs, examplePanel, id]
    norm_num
  have hle : naturalHeight exampleEnv (examplePanelTabs 40 50 0 4)
      ≤ maxHeight exampleEnv (examplePanelTabs 40 50 0 4) := by
    rw [hN, hC]; norm_num
  exact ⟨rfl, hN, hle,
    (updateSize_natural_height exampleEnv (examplePanelTabs 40 50 0 4) rfl).2.2.2 hle⟩

end MenuComponent

/-! ## Button bar -/

theorem place_enumFrom (l : List ButtonComponent) (k : Nat) (g : ComponentGrid) (w : ℚ) :
    ((l.enumFrom k).foldl
        (fun (acc : ComponentGrid × ℚ) (ib : Nat × ButtonComponent) =>
          (acc.1.setEntry (Child.button ib.1) (ib.1, 0) true false (1, 1),
           acc.2 + ib.2.mSize.x)) (g, w)).2 = w + (l.map fun b => b.mSize.x).sum
    ∧ ((l.enumFrom k).foldl
        (fun (acc : ComponentGrid × ℚ) (ib : Nat × ButtonComponent) =>
          (acc.1.setEntry (Child.button ib.1) (ib.1, 0) true false (1, 1),
           acc.2 + ib.2.mSize.x)) (g, w)).1.mColWidths = g.mColWidths
    ∧ ((l.enumFrom k).foldl
        (fun (acc : ComponentGrid × ℚ) (ib : Nat × ButtonComponent) =>
          (acc.1.setEntry (Child.button ib.1) (ib.1, 0) true false (1, 1),
           acc.2 + ib.2.mSize.x)) (g, w)).1.mRowHeights = g.mRowHeights := by
  induction l generalizing k g w with
  | nil => simp
  | cons b rest ih =>
    simp only [List.enumFrom_cons, List.foldl_cons, List.map_cons, List.sum_cons]
    obtain ⟨h1, h2, h3⟩ := ih (k + 1) (g.setEntry (Child.button k) (k, 0) true false (1, 1))
      (w + b.mSize.x)
    refine ⟨?_, ?_, ?_⟩
    · rw [h1]; ring
    · rw [h2]; rfl
    · rw [h3]; rfl

theorem makeButtonGrid_place_width (buttons : List ButtonComponent) (g : ComponentGrid)
    (w : ℚ) :
    (makeButtonGrid_place buttons g w).2 = w + (buttons.map fun b => b.mSize.x).sum :=
  (place_enumFrom buttons 0 g w).1

theorem makeButtonGrid_place_colWidths (buttons : List ButtonComponent) (g : ComponentGrid)
    (w : ℚ) : (makeButtonGrid_place buttons g w).1.mColWidths = g.mColWidths :=
  (place_enumFrom buttons 0 g w).2.1

theorem makeButtonGrid_place_rowHeights (buttons : List ButtonComponent) (g : ComponentGrid)
    (w : ℚ) : (makeButtonGrid_place buttons g w).1.mRowHeights = g.mRowHeights :=
  (place_enumFrom buttons 0 g w).2.2

theorem widths_enumFrom_rowHeights (f : ButtonComponent → ℚ) (l : List ButtonComponent)
    (k : Nat) (g : ComponentGrid) :
    ((l.enumFrom k).foldl
        (fun (g : ComponentGrid) (ib : Nat × ButtonComponent) =>
          g.setColWidthPerc ib.1 (f ib.2)) g).mRowHeights = g.mRowHeights := by
  induction l generalizing k g with
  | nil => simp
  | cons b rest ih =>
    simp only [List.enumFrom_cons, List.foldl_cons]
    rw [ih]; rfl

theorem makeButtonGrid_widths_rowHeights (env : Env) (buttons : List ButtonComponent)
    (g : ComponentGrid) (W : ℚ) :
    (makeButtonGrid_widths env buttons g W).mRowHeights = g.mRowHeights :=
  widths_enumFrom_rowHeights (fun b => (b.mSize.x + BUTTON_GRID_HORIZ_PADDING env) / W)
    buttons 0 g

theorem widths_enumFrom (f : ButtonComponent → ℚ) (l : List ButtonComponent) (k : Nat)
    (g : ComponentGrid) (pre post : List (Option ℚ)) (hg : g.mColWidths = pre ++ post)
    (hpre : pre.length = k) (hpost : post.length = l.length) :
    ((l.enumFrom k).foldl
        (fun (g : ComponentGrid) (ib : Nat × ButtonComponent) =>
          g.setColWidthPerc ib.1 (f ib.2)) g).mColWidths
      = pre ++ l.map (fun b => some (f b))
    ∧ ((l.enumFrom k).foldl
        (fun (g : ComponentGrid) (ib : Nat × ButtonComponent) =>
          g.setColWidthPerc ib.1 (f ib.2)) g).mSize = g.mSize := by
  induction l generalizing k g pre post with
  | nil =>
    have : post = [] := List.length_eq_zero.mp (by simpa using hpost)
    simp [hg, this]
  | cons b rest ih =>
    cases post with
    | nil => simp at hpost
    | cons p post =>
      simp only [List.enumFrom_cons, List.foldl_cons, List.map_cons]
      have hset : (g.setColWidthPerc k (f b)).mColWidths = (pre ++ [some (f b)]) ++ post := by
        simp only [ComponentGrid.setColWidthPerc, hg]
        rw [← hpre]
        simp
      obtain ⟨h1, h2⟩ := ih (k + 1) (g.setColWidthPerc k (f b)) (pre ++ [some (f b)]) post hset
        (by simp [hpre]) (by simpa using hpost)
      refine ⟨?_, ?_⟩
      · rw [h1]; simp
      · rw [h2]; rfl

theorem makeButtonGrid_widths_colWidths (env : Env) (buttons : List ButtonComponent)
    (g : ComponentGrid) (W : ℚ) (hg : g.mColWidths.length = buttons.length) :
    (makeButtonGrid_widths env buttons g W).mColWidths
      = buttons.map fun b => some ((b.mSize.x + BUTTON_GRID_HORIZ_PADDING env) / W) := by
  have := (widths_enumFrom (fun b => (b.mSize.x + BUTTON_GRID_HORIZ_PADDING env) / W)
    buttons 0 g [] g.mColWidths rfl rfl hg).1
  simpa [makeButtonGrid_widths, List.enum] using this

theorem makeButtonGrid_widths_mSize (env : Env) (buttons : List ButtonComponent)
    (g : ComponentGrid) (W : ℚ) (hg : g.mColWidths.length = buttons.length) :
    (makeButtonGrid_widths env buttons g W).mSize = g.mSize :=
  (widths_enumFrom (fun b => (b.mSize.x + BUTTON_GRID_HORIZ_PADDING env) / W)
    buttons 0 g [] g.mColWidths rfl rfl hg).2

/-- What `makeButtonGrid` returns for a non-empty vector of buttons. -/
theorem makeButtonGrid_some (env : Env) (first : ButtonComponent)
    (rest : List ButtonComponent) :
    ∃ g, makeButtonGrid env (first :: rest) = some g
      ∧ g.mColWidths = (first :: rest).map (fun b =>
          some ((b.mSize.x + BUTTON_GRID_HORIZ_PADDING env)
            / (BUTTON_GRID_HORIZ_PADDING env * ((first :: rest).length : ℚ)
                + ((first :: rest).map fun b => b.mSize.x).sum)))
      ∧ g.mSize.x = BUTTON_GRID_HORIZ_PADDING env * ((first :: rest).length : ℚ)
                + ((first :: rest).map fun b => b.mSize.x).sum
      ∧ g.mSize.y = first.mSize.y + BUTTON_GRID_VERT_PADDING env + 2
      ∧ g.mRowHeights
          = [none, some (2 / (first.mSize.y + BUTTON_GRID_VERT_PADDING env + 2))] := by
  refine ⟨_, rfl, ?_, ?_, ?_, ?_⟩
  · simp only [ComponentGrid.setRowHeightPerc, ComponentGrid.setSize]
    rw [makeButtonGrid_widths_colWidths, makeButtonGrid_place_width]
    rw [makeButtonGrid_place_colWidths]
    simp [ComponentGrid.create]
  · simp only [ComponentGrid.setRowHeightPerc, ComponentGrid.setSize]
    rw [makeButtonGrid_place_width]
  · simp only [ComponentGrid.setRowHeightPerc, ComponentGrid.setSize]
  · simp only [ComponentGrid.setRowHeightPerc, ComponentGrid.setSize]
    rw [makeButtonGrid_widths_rowHeights, makeButtonGrid_place_rowHeights]
    simp [ComponentGrid.create, List.replicate]

namespace MenuComponent

theorem updateSize_mHeaderGrid (env : Env) (s : MenuComponent) :
    (updateSize env s).mHeaderGrid = s.mHeaderGrid := by
  unfold updateSize alignTitle
  split
  · rfl
  · simp only []
    split <;> rfl

theorem updateSize_font (env : Env) (s : MenuComponent) :
    (updateSize env s).mTitle.font = s.mTitle.font := by
  unfold updateSize alignTitle
  split
  · rfl
  · simp only []
    split <;> rfl

theorem updateSize_mSubtitle_none (env : Env) (s : MenuComponent) :
    (updateSize env s).mSubtitle = none ↔ s.mSubtitle = none := by
  unfold updateSize alignTitle
  split
  · rfl
  · simp only []
    split
    · simp
    · rfl

theorem updateSize_TITLE_HEIGHT (env : Env) (s : MenuComponent) :
    TITLE_HEIGHT env (updateSize env s) = TITLE_HEIGHT env s := by
  unfold updateSize alignTitle
  split
  · rfl
  · simp only []
    split
    · unfold TITLE_HEIGHT
      cases s.mSubtitle <;> simp
    · rfl

theorem HeaderInv_congr (env : Env) (s t : MenuComponent)
    (hgrid : t.mHeaderGrid = s.mHeaderGrid) (hfont : t.mTitle.font = s.mTitle.font)
    (hsub : t.mSubtitle = none ↔ s.mSubtitle = none)
    (hth : TITLE_HEIGHT env t = TITLE_HEIGHT env s) (h : HeaderInv env s) :
    HeaderInv env t := by
  obtain ⟨hc, a, r, hrows, hr, hnone, hsome⟩ := h
  refine ⟨by rw [hgrid]; exact hc, a, r, by rw [hgrid]; exact hrows, hr, ?_, ?_⟩
  · intro ht; exact hnone (hsub.mp ht)
  · intro ht
    rw [hfont, hth]
    exact hsome (fun hs => ht (hsub.mpr hs))

theorem HeaderInv_updateSize (env : Env) (s : MenuComponent) (h : HeaderInv env s) :
    HeaderInv env (updateSize env s) :=
  HeaderInv_congr env s _ (updateSize_mHeaderGrid env s) (updateSize_font env s)
    (updateSize_mSubtitle_none env s) (updateSize_TITLE_HEIGHT env s) h

theorem HeaderInv_setTitleImage (env : Env) (titleImage : Option ImageComponent)
    (replaceTitle : Bool) (s : MenuComponent) (h : HeaderInv env s) :
    HeaderInv env (setTitleImage env titleImage replaceTitle s) := by
  obtain ⟨⟨c, d, hcols, -⟩, a, r, hrows, hr, hnone, hsome⟩ := h
  unfold setTitleImage
  cases titleImage with
  | none =>
    simp only []
    by_cases himg : s.mTitleImage.isSome = true
    · simp only [himg, if_true]
      refine ⟨⟨1, 0, ?_, fun _ => by norm_num⟩, a, r, ?_, hr, hnone, hsome⟩
      · simp [ComponentGrid.setColWidthPerc, ComponentGrid.removeEntry, hcols]
      · simp [ComponentGrid.setColWidthPerc, ComponentGrid.removeEntry, hrows]
    · simp only [himg]
      refine ⟨⟨1, 0, ?_, fun _ => by norm_num⟩, a, r, ?_, hr, hnone, hsome⟩
      · simp [ComponentGrid.setColWidthPerc, hcols]
      · simp [ComponentGrid.setColWidthPerc, hrows]
  | some img =>
    simp only []
    by_cases hrep : replaceTitle = true
    · simp only [hrep, if_true]
      apply HeaderInv_updateSize
      refine ⟨⟨0, 1, ?_, fun _ => by norm_num⟩, a, r, ?_, hr, ?_, ?_⟩
      · simp [ComponentGrid.setColWidthPerc, ComponentGrid.setEntry, hcols]
      · simp [ComponentGrid.setColWidthPerc, ComponentGrid.setEntry, hrows]
      · intro hs
        apply hnone
        simpa using hs
      · intro hs
        have hs2 : s.mSubtitle ≠ none := by simpa using hs
        have := hsome hs2
        rw [this]
        unfold TITLE_HEIGHT
        cases hsub : s.mSubtitle <;> simp
    · simp only [hrep]
      apply HeaderInv_updateSize
      refine ⟨⟨env.fl (1 - env.fl (TITLE_HEIGHT env s / panelWidth env)),
          env.fl (TITLE_HEIGHT env s / panelWidth env), ?_,
          fun hid => by rw [hid, hid]; ring⟩, a, r, ?_, hr, hnone, hsome⟩
      · simp only [ComponentGrid.setColWidthPerc, ComponentGrid.setEntry, hcols]
        simp only [List.set_cons_zero, List.set_cons_succ]
      · simp [ComponentGrid.setColWidthPerc, ComponentGrid.setEntry, hrows]

theorem setSubTitle_widget_facts (env : Env) (text : String) (s : MenuComponent) :
    (setSubTitle_widget env text s).mHeaderGrid.mColWidths = s.mHeaderGrid.mColWidths
    ∧ (setSubTitle_widget env text s).mHeaderGrid.mRowHeights = s.mHeaderGrid.mRowHeights
    ∧ (setSubTitle_widget env text s).mTitle = s.mTitle
    ∧ (setSubTitle_widget env text s).mTitleImage = s.mTitleImage
    ∧ ∃ sub, (setSubTitle_widget env text s).mSubtitle = some sub
        ∧ sub.size.y = env.textHeight sub.font text := by
  unfold setSubTitle_widget
  cases hsub : s.mSubtitle with
  | none => simp [ComponentGrid.setEntry]
  | some sub0 => simp [hsub]

/-- What `setSubTitle_rowHeight` stores on a panel with a subtitle: the float
`titleHeight / TITLE_HEIGHT` for row 0, and nothing else. -/
theorem setSubTitle_rowHeight_rows (env : Env) (s : MenuComponent) (sub : TextComponent)
    (hs : s.mSubtitle = some sub) :
    (setSubTitle_rowHeight env s).mHeaderGrid.mRowHeights
      = s.mHeaderGrid.mRowHeights.set 0
          (some (env.fl
            (fadd env s.mTitle.font.letterHeight env.TITLE_WITHSUB_VERT_PADDING
              / fadd env
                  (fadd env s.mTitle.font.letterHeight env.TITLE_WITHSUB_VERT_PADDING)
                  (fadd env sub.size.y env.SUBTITLE_VERT_PADDING))))
    ∧ (setSubTitle_rowHeight env s).mHeaderGrid.mColWidths = s.mHeaderGrid.mColWidths
    ∧ TITLE_HEIGHT env s
        = fadd env (fadd env s.mTitle.font.letterHeight env.TITLE_WITHSUB_VERT_PADDING)
            (fadd env sub.size.y env.SUBTITLE_VERT_PADDING) := by
  have hT : TITLE_HEIGHT env s
      = fadd env (fadd env s.mTitle.font.letterHeight env.TITLE_WITHSUB_VERT_PADDING)
          (fadd env sub.size.y env.SUBTITLE_VERT_PADDING) := by
    unfold TITLE_HEIGHT
    simp [hs]
  refine ⟨?_, rfl, hT⟩
  unfold setSubTitle_rowHeight setSubTitle_titleHeight
  rw [hT]
  simp [ComponentGrid.setRowHeightPerc, hs]

theorem HeaderInv_setSubTitle_rowHeight (env : Env) (s : MenuComponent)
    (hc : ∃ c d, s.mHeaderGrid.mColWidths = [some c, some d]
      ∧ ((∀ x, env.fl x = x) → c + d = 1))
    (hr : ∃ a r, s.mHeaderGrid.mRowHeights = [a, r] ∧ (r = none ∨ r = some 0))
    (hsub : s.mSubtitle ≠ none) :
    HeaderInv env (setSubTitle_rowHeight env s) := by
  obtain ⟨c, d, hcols, hcd⟩ := hc
  obtain ⟨a, r, hrows, hr0⟩ := hr
  obtain ⟨sub, hs⟩ := Option.ne_none_iff_exists.mp hsub
  obtain ⟨e1, e2, e3⟩ := setSubTitle_rowHeight_rows env s sub hs.symm
  refine ⟨⟨c, d, by rw [e2]; exact hcols, hcd⟩,
    env.fl (fadd env s.mTitle.font.letterHeight env.TITLE_WITHSUB_VERT_PADDING
      / fadd env (fadd env s.mTitle.font.letterHeight env.TITLE_WITHSUB_VERT_PADDING)
          (fadd env sub.size.y env.SUBTITLE_VERT_PADDING)),
    r, ?_, hr0, ?_, ?_⟩
  · rw [e1, hrows]
    rfl
  · intro h; exact absurd h hsub
  · intro _
    have hT : TITLE_HEIGHT env (setSubTitle_rowHeight env s) = TITLE_HEIGHT env s := rfl
    have hF : (setSubTitle_rowHeight env s).mTitle = s.mTitle := rfl
    rw [hT, hF, e3]

theorem HeaderInv_setSubTitle (env : Env) (defaultReplaceTitle : Bool) (text : String)
    (s : MenuComponent)
    (hc : ∃ c d, s.mHeaderGrid.mColWidths = [some c, some d]
      ∧ ((∀ x, env.fl x = x) → c + d = 1))
    (hr : ∃ a r, s.mHeaderGrid.mRowHeights = [a, r] ∧ (r = none ∨ r = some 0)) :
    HeaderInv env (setSubTitle env defaultReplaceTitle text s) := by
  obtain ⟨c, d, hcols, hcd⟩ := hc
  obtain ⟨a, r, hrows, hr0⟩ := hr
  unfold setSubTitle
  by_cases hempty : text.isEmpty = true
  · simp only [hempty, if_true]
    by_cases hsub : s.mSubtitle.isSome = true
    · simp only [hsub, if_true]
      refine ⟨⟨c, d, ?_, hcd⟩, 1, some 0, ?_, Or.inr rfl, fun _ => ⟨rfl, rfl⟩,
        fun h => absurd rfl h⟩
      · simp [ComponentGrid.setRowHeightPerc, ComponentGrid.removeEntry, hcols]
      · simp [ComponentGrid.setRowHeightPerc, ComponentGrid.removeEntry, hrows]
    · simp only [hsub]
      have hnone : s.mSubtitle = none := by
        cases h : s.mSubtitle with
        | none => rfl
        | some x => simp [h] at hsub
      refine ⟨⟨c, d, ?_, hcd⟩, 1, some 0, ?_, Or.inr rfl, fun _ => ⟨rfl, rfl⟩, ?_⟩
      · simp [ComponentGrid.setRowHeightPerc, hcols]
      · simp [ComponentGrid.setRowHeightPerc, hrows]
      · intro h
        exact absurd hnone (by simpa using h)
  · simp only [hempty]
    apply HeaderInv_updateSize
    obtain ⟨w1, w2, -, -, sub, w4, -⟩ := setSubTitle_widget_facts env text s
    have hinv : HeaderInv env (setSubTitle_rowHeight env (setSubTitle_widget env text s)) :=
      HeaderInv_setSubTitle_rowHeight env _ ⟨c, d, by rw [w1]; exact hcols, hcd⟩
        ⟨a, r, by rw [w2]; exact hrows, hr0⟩ (by rw [w4]; simp)
    cases himg : (setSubTitle_rowHeight env (setSubTitle_widget env text s)).mTitleImage with
    | none => simpa [himg] using hinv
    | some img =>
      simp only [himg]
      exact HeaderInv_setTitleImage env (some img) defaultReplaceTitle _ hinv

theorem HeaderInv_of_eq (env : Env) (s t : MenuComponent)
    (hgrid : t.mHeaderGrid = s.mHeaderGrid) (htitle : t.mTitle = s.mTitle)
    (hsub : t.mSubtitle = s.mSubtitle) (h : HeaderInv env s) : HeaderInv env t :=
  HeaderInv_congr env s t hgrid (by rw [htitle]) (by rw [hsub])
    (by unfold TITLE_HEIGHT; rw [htitle, hsub]) h

/-- The outer grid once `updateGrid` has removed the old button bar from it. -/
theorem updateGrid_nil (env : Env) (s : MenuComponent) (hb : s.mButtons = []) :
    updateGrid env s
      = { s with
          mGrid := if s.mButtonGrid.isSome then s.mGrid.removeEntry Child.buttonGrid
                   else s.mGrid
          mButtonGrid := none } := by
  unfold updateGrid
  cases hbg : s.mButtonGrid <;> simp [hb]

theorem updateGrid_cons (env : Env) (s : MenuComponent) (first : ButtonComponent)
    (rest : List ButtonComponent) (hb : s.mButtons = first :: rest) :
    ∃ g, makeButtonGrid env (first :: rest) = some g
      ∧ updateGrid env s
        = { s with
            mGrid := (if s.mButtonGrid.isSome then s.mGrid.removeEntry Child.buttonGrid
                      else s.mGrid).setEntry Child.buttonGrid (0, 3) true false (1, 1)
            mButtonGrid := some g } := by
  obtain ⟨g, hg, -⟩ := makeButtonGrid_some env first rest
  refine ⟨g, hg, ?_⟩
  unfold updateGrid
  cases hbg : s.mButtonGrid <;> simp [hb, hg]

theorem updateGrid_header (env : Env) (s : MenuComponent) :
    (updateGrid env s).mHeaderGrid = s.mHeaderGrid
    ∧ (updateGrid env s).mTitle = s.mTitle
    ∧ (updateGrid env s).mSubtitle = s.mSubtitle := by
  cases hb : s.mButtons with
  | nil => rw [updateGrid_nil env s hb]; exact ⟨rfl, rfl, rfl⟩
  | cons first rest =>
    obtain ⟨g, -, h⟩ := updateGrid_cons env s first rest hb
    rw [h]; exact ⟨rfl, rfl, rfl⟩

theorem create_outerGrid_header (s : MenuComponent) :
    (create_outerGrid s).mHeaderGrid = s.mHeaderGrid
    ∧ (create_outerGrid s).mTitle = s.mTitle
    ∧ (create_outerGrid s).mSubtitle = s.mSubtitle := by
  unfold create_outerGrid
  simp only []
  split <;> simp

theorem HeaderInv_construct (env : Env) (defaultReplaceTitle : Bool) (title : String)
    (titleFont : Option Font) (subTitle : String) (tabbedUI : Bool) :
    HeaderInv env (construct env defaultReplaceTitle title titleFont subTitle tabbedUI) := by
  unfold construct
  simp only []
  refine HeaderInv_of_eq env _ _ rfl rfl rfl (HeaderInv_updateSize env _ ?_)
  refine HeaderInv_of_eq env _ _ (updateGrid_header env _).1 (updateGrid_header env _).2.1
    (updateGrid_header env _).2.2 ?_
  refine HeaderInv_of_eq env _ _ (create_outerGrid_header _).1 (create_outerGrid_header _).2.1
    (create_outerGrid_header _).2.2 ?_
  apply HeaderInv_setSubTitle
  · exact ⟨1, 0, by simp [setTitle, ComponentGrid.setEntry, ComponentGrid.setColWidthPerc,
      ComponentGrid.create, List.replicate], fun _ => by norm_num⟩
  · exact ⟨none, none, by simp [setTitle, ComponentGrid.setEntry,
      ComponentGrid.setColWidthPerc, ComponentGrid.create, List.replicate], Or.inl rfl⟩

/-- The constructor has a result exactly when the subtitle is empty or full-screen
menus are on, and the result is the state its statements build. -/
theorem create_eq_some (env : Env) (defaultReplaceTitle : Bool) (title : String)
    (titleFont : Option Font) (subTitle : String) (tabbedUI : Bool) (s : MenuComponent) :
    create env defaultReplaceTitle title titleFont subTitle tabbedUI = some s
      ↔ (subTitle.isEmpty = true ∨ env.fullScreenMenus = true)
        ∧ s = construct env defaultReplaceTitle title titleFont subTitle tabbedUI := by
  unfold create
  by_cases h : subTitle.isEmpty = false ∧ env.fullScreenMenus = false
  · rw [if_pos h]
    constructor
    · intro hs; exact absurd hs (by simp)
    · rintro ⟨h1 | h1, -⟩
      · rw [h.1] at h1; exact absurd h1 (by simp)
      · rw [h.2] at h1; exact absurd h1 (by simp)
  · rw [if_neg h]
    have h2 : subTitle.isEmpty = true ∨ env.fullScreenMenus = true := by
      by_cases h3 : subTitle.isEmpty = true
      · exact Or.inl h3
      · right
        by_cases h4 : env.fullScreenMenus = true
        · exact h4
        · exact absurd ⟨by simpa using h3, by simpa using h4⟩ h
    constructor
    · intro hs
      exact ⟨h2, (Option.some.inj hs).symm⟩
    · rintro ⟨-, rfl⟩
      rfl

theorem HeaderInv_applyHeaderOp (env : Env) (defaultReplaceTitle : Bool) (op : HeaderOp)
    (s : MenuComponent) (h : HeaderInv env s) :
    HeaderInv env (applyHeaderOp env defaultReplaceTitle s op) := by
  cases op with
  | setSubTitle text =>
    obtain ⟨hc, a, r, hrows, hr, -, -⟩ := h
    exact HeaderInv_setSubTitle env defaultReplaceTitle text s hc ⟨some a, r, hrows, hr⟩
  | setTitleImage titleImage replaceTitle =>
    exact HeaderInv_setTitleImage env titleImage replaceTitle s h

theorem HeaderInv_applyHeaderOps (env : Env) (defaultReplaceTitle : Bool)
    (ops : List HeaderOp) (s : MenuComponent) (h : HeaderInv env s) :
    HeaderInv env (applyHeaderOps env defaultReplaceTitle ops s) := by
  unfold applyHeaderOps
  induction ops generalizing s with
  | nil => exact h
  | cons op rest ih =>
    simp only [List.foldl_cons]
    exact ih _ (HeaderInv_applyHeaderOp env defaultReplaceTitle op s h)

/-- What the header grid has stored in every configuration reachable through the
constructor, `setSubTitle` and `setTitleImage`: a percentage for each column, the
two summing to 1 when no rounding occurs; without subtitle 1 for row 0 and 0 for
row 1; with a subtitle the float `titleHeight / TITLE_HEIGHT` for row 0, and for
row 1 either the 0 an earlier call stored or nothing. -/
theorem header_reachable_stored (env : Env) (defaultReplaceTitle : Bool) (title : String)
    (titleFont : Option Font) (subTitle : String) (tabbedUI : Bool) (ops : List HeaderOp)
    (built : MenuComponent)
    (hbuilt : create env defaultReplaceTitle title titleFont subTitle tabbedUI = some built) :
    (∃ c d, (applyHeaderOps env defaultReplaceTitle ops built).mHeaderGrid.colWidthPerc 0
          = some c
        ∧ (applyHeaderOps env defaultReplaceTitle ops built).mHeaderGrid.colWidthPerc 1
          = some d
        ∧ ((∀ x, env.fl x = x) → c + d = 1))
    ∧ ((applyHeaderOps env defaultReplaceTitle ops built).mSubtitle = none →
        (applyHeaderOps env defaultReplaceTitle ops built).mHeaderGrid.rowHeightPerc 0
          = some 1
        ∧ (applyHeaderOps env defaultReplaceTitle ops built).mHeaderGrid.rowHeightPerc 1
          = some 0)
    ∧ ((applyHeaderOps env defaultReplaceTitle ops built).mSubtitle ≠ none →
        (applyHeaderOps env defaultReplaceTitle ops built).mHeaderGrid.rowHeightPerc 0
          = some (env.fl
              (fadd env
                  (applyHeaderOps env defaultReplaceTitle ops built).mTitle.font.letterHeight
                  env.TITLE_WITHSUB_VERT_PADDING
                / TITLE_HEIGHT env (applyHeaderOps env defaultReplaceTitle ops built)))
        ∧ ((applyHeaderOps env defaultReplaceTitle ops built).mHeaderGrid.rowHeightPerc 1
            = none
          ∨ (applyHeaderOps env defaultReplaceTitle ops built).mHeaderGrid.rowHeightPerc 1
            = some 0)) := by
  obtain ⟨-, rfl⟩ := (create_eq_some env defaultReplaceTitle title titleFont subTitle
    tabbedUI built).mp hbuilt
  obtain ⟨⟨c, d, hcols, hcd⟩, a, r, hrows, hr, hnone, hsome⟩ :=
    HeaderInv_applyHeaderOps env defaultReplaceTitle ops _
      (HeaderInv_construct env defaultReplaceTitle title titleFont subTitle tabbedUI)
  refine ⟨⟨c, d, ?_, ?_, hcd⟩, ?_, ?_⟩
  · simp [ComponentGrid.colWidthPerc, hcols]
  · simp [ComponentGrid.colWidthPerc, hcols]
  · intro hs
    obtain ⟨ha, hr1⟩ := hnone hs
    simp [ComponentGrid.rowHeightPerc, hrows, ha, hr1]
  · intro hs
    refine ⟨?_, ?_⟩
    · simp [ComponentGrid.rowHeightPerc, hrows, hsome hs]
    · rcases hr with hr | hr
      · left; simp [ComponentGrid.rowHeightPerc, hrows, hr]
      · right; simp [ComponentGrid.rowHeightPerc, hrows, hr]

theorem resetCursor_mCells (g : ComponentGrid) : g.resetCursor.mCells = g.mCells := by
  unfold ComponentGrid.resetCursor
  simp only []
  split <;> rfl

/-- The fields of the example panel that the layout reads. -/
theorem exampleBuilt_fields :
    exampleBuilt.mSubtitle = none
    ∧ exampleBuilt.mTitle.font = ⟨40, 48⟩
    ∧ exampleBuilt.mList = {}
    ∧ exampleBuilt.mTabs = none
    ∧ exampleBuilt.mMaxHeight = 0
    ∧ exampleBuilt.mButtonGrid = none
    ∧ exampleBuilt.mTitleImage = none := by
  have hempty : ("".isEmpty) = true := by decide
  simp [exampleBuilt, construct, setSubTitle, hempty, setTitle, create_outerGrid, updateGrid,
    updateSize, alignTitle, exampleEnv, exampleTheme]

theorem updateSize_fields (env : Env) (s : MenuComponent) :
    (updateSize env s).mList = s.mList
    ∧ (updateSize env s).mTabs = s.mTabs
    ∧ (updateSize env s).mMaxHeight = s.mMaxHeight
    ∧ (updateSize env s).mButtonGrid = s.mButtonGrid
    ∧ (updateSize env s).mButtons = s.mButtons
    ∧ (updateSize env s).mGrid = s.mGrid := by
  unfold updateSize alignTitle
  split
  · exact ⟨rfl, rfl, rfl, rfl, rfl, rfl⟩
  · simp only []
    split <;> exact ⟨rfl, rfl, rfl, rfl, rfl, rfl⟩

theorem updateSize_mSize (env : Env) (s : MenuComponent) :
    (updateSize env s).mSize
      = if env.fullScreenMenus then ⟨env.screenWidth, env.screenHeight⟩
        else ⟨panelWidth env,
              computedHeight env s⟩ := by
  unfold updateSize
  split
  · rfl
  · simp only [alignTitle_mSize]

theorem computedHeight_congr (env : Env) (s t : MenuComponent)
    (hT : TITLE_HEIGHT env t = TITLE_HEIGHT env s) (hL : t.mList = s.mList)
    (hTabs : t.mTabs = s.mTabs) (hMax : t.mMaxHeight = s.mMaxHeight)
    (hBG : t.mButtonGrid = s.mButtonGrid) :
    computedHeight env t = computedHeight env s := by
  unfold computedHeight naturalHeight getTotalRowHeight rowHeights maxHeight
    getButtonGridHeight
  rw [hT, hL, hTabs, hMax, hBG]

theorem SameLayoutInputs_updateSize_updateGrid (env : Env) (s t : MenuComponent)
    (buttons : List ButtonComponent) (h : SameLayoutInputs env s t) :
    SameLayoutInputs env s (updateSize env (updateGrid env { t with mButtons := buttons })) := by
  obtain ⟨h1, h2, h3, h4⟩ := h
  obtain ⟨u1, u2, u3, -, -, -⟩ :=
    updateSize_fields env (updateGrid env { t with mButtons := buttons })
  have hg : TITLE_HEIGHT env (updateGrid env { t with mButtons := buttons }) = TITLE_HEIGHT env t
      ∧ (updateGrid env { t with mButtons := buttons }).mList = t.mList
      ∧ (updateGrid env { t with mButtons := buttons }).mTabs = t.mTabs
      ∧ (updateGrid env { t with mButtons := buttons }).mMaxHeight = t.mMaxHeight := by
    cases hb : buttons with
    | nil => rw [updateGrid_nil env _ rfl]; exact ⟨rfl, rfl, rfl, rfl⟩
    | cons first rest =>
      obtain ⟨g, -, e⟩ := updateGrid_cons env { t with mButtons := first :: rest } first rest rfl
      rw [e]; exact ⟨rfl, rfl, rfl, rfl⟩
  refine ⟨?_, ?_, ?_, ?_⟩
  · rw [updateSize_TITLE_HEIGHT, hg.1, h1]
  · rw [u1, hg.2.1, h2]
  · rw [u2, hg.2.2.1, h3]
  · rw [u3, hg.2.2.2, h4]

theorem updateGrid_mButtonGrid (env : Env) (s : MenuComponent) (hb : s.mButtons ≠ []) :
    (updateGrid env s).mButtonGrid ≠ none := by
  cases hbs : s.mButtons with
  | nil => exact absurd hbs hb
  | cons first rest =>
    obtain ⟨g, -, e⟩ := updateGrid_cons env s first rest hbs
    rw [e]; simp

theorem addButton_mButtonGrid (env : Env) (name helpText : String)
    (callback : Option Callback) (s : MenuComponent) :
    (addButton env name helpText callback s).mButtonGrid ≠ none := by
  unfold addButton
  simp only []
  rw [(updateSize_fields env _).2.2.2.1]
  apply updateGrid_mButtonGrid
  simp

/-- The panel after any run of `addButton` calls reads the same layout inputs, and
holds a button-bar cell in the outer grid only together with a button bar. -/
theorem addButtons_inv (env : Env) (bs : List (String × String × Option Callback))
    (s : MenuComponent)
    (hwf : s.mButtonGrid = none → ∀ e ∈ s.mGrid.mCells, e.component ≠ Child.buttonGrid) :
    SameLayoutInputs env s (addButtons env bs s)
    ∧ ((addButtons env bs s).mButtonGrid = none →
        ∀ e ∈ (addButtons env bs s).mGrid.mCells, e.component ≠ Child.buttonGrid) := by
  unfold addButtons
  induction bs using List.reverseRecOn with
  | nil => exact ⟨⟨rfl, rfl, rfl, rfl⟩, hwf⟩
  | append_singleton bs b ih =>
    simp only [List.foldl_append, List.foldl_cons, List.foldl_nil]
    refine ⟨?_, ?_⟩
    · exact SameLayoutInputs_updateSize_updateGrid env s _ _ ih.1
    · intro hnone
      exact absurd hnone (addButton_mButtonGrid env _ _ _ _)

theorem removeEntry_no_cell (g : ComponentGrid) (c : Child) :
    ∀ e ∈ (g.removeEntry c).mCells, e.component ≠ c := by
  intro e he
  unfold ComponentGrid.removeEntry at he
  simpa using (List.mem_filter.mp he).2

/-- What `clearButtons` leaves behind. -/
theorem clearButtons_facts (env : Env) (t : MenuComponent)
    (hwf : t.mButtonGrid = none → ∀ e ∈ t.mGrid.mCells, e.component ≠ Child.buttonGrid) :
    (clearButtons env t).mButtons = []
    ∧ (clearButtons env t).mButtonGrid = none
    ∧ (∀ e ∈ (clearButtons env t).mGrid.mCells, e.component ≠ Child.buttonGrid)
    ∧ (clearButtons env t).mSize
        = if env.fullScreenMenus then ⟨env.screenWidth, env.screenHeight⟩
          else ⟨panelWidth env,
                computedHeight env { t with mButtonGrid := none }⟩ := by
  unfold clearButtons
  obtain ⟨-, -, -, u4, u5, u6⟩ := updateSize_fields env (updateGrid env { t with mButtons := [] })
  have hg := updateGrid_nil env { t with mButtons := [] } rfl
  refine ⟨?_, ?_, ?_, ?_⟩
  · rw [u5, hg]
  · rw [u4, hg]
  · rw [u6, hg]
    simp only []
    cases hbg : t.mButtonGrid with
    | none => simpa using hwf hbg
    | some g =>
      simp only [Option.isSome_some, if_true]
      exact removeEntry_no_cell _ _
  · rw [updateSize_mSize, hg]
    have hc : computedHeight env
        { ({ t with mButtons := [] } : MenuComponent) with
          mGrid := if ({ t with mButtons := [] } : MenuComponent).mButtonGrid.isSome
                   then ({ t with mButtons := [] } : MenuComponent).mGrid.removeEntry
                     Child.buttonGrid
                   else ({ t with mButtons := [] } : MenuComponent).mGrid
          mButtonGrid := none }
        = computedHeight env { t with mButtonGrid := none } :=
      computedHeight_congr env _ _ rfl rfl rfl rfl rfl
    rw [hc]

/-- C7, as amended: for every run of `addButton` calls on a panel whose outer grid
holds a button-bar cell only together with a button bar, `clearButtons` afterwards
leaves the button sequence empty, no button bar, and no button-bar cell in the outer
grid, and the panel size is the one `clearButtons` gives the panel had no button
been added. With full-screen menus off that height is the `updateSize` height with
the button-bar height taken as text font height + vertical padding: the natural
height still counts that placeholder and the 2 of slack besides header, rows and
tab strip, each `+` a float addition (so exactly their sum when no sum needs
rounding). -/
theorem clearButtons_after_addButtons (env : Env)
    (bs : List (String × String × Option Callback)) (s : MenuComponent)
    (hwf : s.mButtonGrid = none → ∀ e ∈ s.mGrid.mCells, e.component ≠ Child.buttonGrid) :
    (clearButtons env (addButtons env bs s)).mButtons = []
    ∧ (clearButtons env (addButtons env bs s)).mButtonGrid = none
    ∧ (∀ e ∈ (clearButtons env (addButtons env bs s)).mGrid.mCells,
        e.component ≠ Child.buttonGrid)
    ∧ (clearButtons env (addButtons env bs s)).mSize = (clearButtons env s).mSize
    ∧ (env.fullScreenMenus = false →
        (clearButtons env (addButtons env bs s)).mSize.y
          = computedHeight env { s with mButtonGrid := none })
    ∧ getButtonGridHeight env { s with mButtonGrid := none }
        = fadd env env.theme.textFont.height (BUTTON_GRID_VERT_PADDING env)
    ∧ naturalHeight env { s with mButtonGrid := none }
        = (match s.mTabs with
           | some tabs =>
             if tabs.mTabs.length ≠ 0 then
               fadd env (fadd env (fadd env (fadd env (TITLE_HEIGHT env s)
                 (getTotalRowHeight env s))
                 (fadd env env.theme.textFont.height (BUTTON_GRID_VERT_PADDING env))) 2)
                 tabs.mSize.y
             else
               fadd env (fadd env (fadd env (TITLE_HEIGHT env s)
                 (getTotalRowHeight env s))
                 (fadd env env.theme.textFont.height (BUTTON_GRID_VERT_PADDING env))) 2
           | none =>
             fadd env (fadd env (fadd env (TITLE_HEIGHT env s)
               (getTotalRowHeight env s))
               (fadd env env.theme.textFont.height (BUTTON_GRID_VERT_PADDING env))) 2)
    ∧ ((∀ x, env.fl x = x) →
        naturalHeight env { s with mButtonGrid := none }
          = TITLE_HEIGHT env s + (rowHeights env s).sum
            + (env.theme.textFont.height + BUTTON_GRID_VERT_PADDING env) + 2
            + (match s.mTabs with
               | some tabs => if tabs.mTabs.length ≠ 0 then tabs.mSize.y else 0
               | none => 0)) := by
  obtain ⟨⟨k1, k2, k3, k4⟩, hwf2⟩ := addButtons_inv env bs s hwf
  obtain ⟨c1, c2, c3, c4⟩ := clearButtons_facts env (addButtons env bs s) hwf2
  obtain ⟨-, -, -, d4⟩ := clearButtons_facts env s hwf
  have hc : computedHeight env { addButtons env bs s with mButtonGrid := none }
      = computedHeight env { s with mButtonGrid := none } :=
    computedHeight_congr env _ _ k1 k2 k3 k4 rfl
  have hT : TITLE_HEIGHT env { s with mButtonGrid := none } = TITLE_HEIGHT env s := rfl
  have hR : rowHeights env { s with mButtonGrid := none } = rowHeights env s := rfl
  have hB : getButtonGridHeight env { s with mButtonGrid := none }
      = fadd env env.theme.textFont.height (BUTTON_GRID_VERT_PADDING env) := rfl
  refine ⟨c1, c2, c3, ?_, ?_, hB, ?_, ?_⟩
  · rw [c4, d4, hc]
  · intro hfs
    rw [c4, hc]
    simp [hfs]
  · unfold naturalHeight getTotalRowHeight
    rw [hT, hR, hB]
  · intro hexact
    rw [naturalHeight_exact env _ hexact, hT, hR, hB]
    unfold fadd
    rw [hexact]

theorem exampleBuilt_cells :
    ∀ e ∈ exampleBuilt.mGrid.mCells, e.component ≠ Child.buttonGrid := by
  have hempty : ("".isEmpty) = true := by decide
  have hc : exampleBuilt.mGrid.mCells
      = [{ component := Child.headerGrid, pos := (0, 0), canFocus := false, resize := true },
         { component := Child.list, pos := (0, 2), canFocus := true, resize := true }] := by
    unfold exampleBuilt construct
    simp only [resetCursor_mCells]
    simp [setSubTitle, hempty, setTitle, create_outerGrid, updateGrid,
      updateSize, alignTitle, exampleEnv, ComponentGrid.setEntry, ComponentGrid.create]
  intro e he
  rw [hc] at he
  simp only [List.mem_cons, List.mem_singleton, List.not_mem_nil, or_false] at he
  rcases he with rfl | rfl <;> simp

theorem exampleBuilt_TITLE_HEIGHT : TITLE_HEIGHT exampleEnv exampleBuilt = 60 := by
  unfold TITLE_HEIGHT
  rw [exampleBuilt_fields.1, exampleBuilt_fields.2.1]
  simp only [exampleEnv_fadd]
  norm_num [exampleEnv]

/-- C7, witness: two buttons added to the panel the constructor builds on the example
screen, then cleared. -/
theorem clearButtons_after_addButtons_witness :
    (exampleBuilt.mButtonGrid = none →
        ∀ e ∈ exampleBuilt.mGrid.mCells, e.component ≠ Child.buttonGrid)
    ∧ (clearButtons exampleEnv (addButtons exampleEnv exampleButtonCalls exampleBuilt)).mButtons
        = []
    ∧ (clearButtons exampleEnv
        (addButtons exampleEnv exampleButtonCalls exampleBuilt)).mButtonGrid = none
    ∧ (∀ e ∈ (clearButtons exampleEnv
          (addButtons exampleEnv exampleButtonCalls exampleBuilt)).mGrid.mCells,
        e.component ≠ Child.buttonGrid)
    ∧ (clearButtons exampleEnv (addButtons exampleEnv exampleButtonCalls exampleBuilt)).mSize
        = (clearButtons exampleEnv exampleBuilt).mSize :=
  ⟨fun _ => exampleBuilt_cells,
   (clearButtons_after_addButtons exampleEnv exampleButtonCalls exampleBuilt
      fun _ => exampleBuilt_cells).1,
   (clearButtons_after_addButtons exampleEnv exampleButtonCalls exampleBuilt
      fun _ => exampleBuilt_cells).2.1,
   (clearButtons_after_addButtons exampleEnv exampleButtonCalls exampleBuilt
      fun _ => exampleBuilt_cells).2.2.1,
   (clearButtons_after_addButtons exampleEnv exampleButtonCalls exampleBuilt
      fun _ => exampleBuilt_cells).2.2.2.1⟩

/-- C7, counterexample: on the panel the constructor builds on the example screen
(header 60 high, no rows), one button added and then cleared: the panel is set
60 + 0 + (30 + 720 * 0.0296296) + 2 high, which is not header height + list height:
the height of a line of text plus vertical padding is still counted for the absent
button bar. -/
theorem clearButtons_after_addButtons_counterexample :
    exampleEnv.fullScreenMenus = false
    ∧ (clearButtons exampleEnv
        (addButtons exampleEnv [("ok", "confirm", some 0)] exampleBuilt)).mButtons = []
    ∧ (clearButtons exampleEnv
        (addButtons exampleEnv [("ok", "confirm", some 0)] exampleBuilt)).mButtonGrid = none
    ∧ TITLE_HEIGHT exampleEnv (clearButtons exampleEnv
        (addButtons exampleEnv [("ok", "confirm", some 0)] exampleBuilt)) = 60
    ∧ getTotalRowHeight exampleEnv (clearButtons exampleEnv
        (addButtons exampleEnv [("ok", "confirm", some 0)] exampleBuilt)) = 0
    ∧ (clearButtons exampleEnv
        (addButtons exampleEnv [("ok", "confirm", some 0)] exampleBuilt)).mSize.y
        = 60 + 0 + (30 + 720 * 0.0296296) + 2
    ∧ (clearButtons exampleEnv
        (addButtons exampleEnv [("ok", "confirm", some 0)] exampleBuilt)).mSize.y
        ≠ TITLE_HEIGHT exampleEnv (clearButtons exampleEnv
            (addButtons exampleEnv [("ok", "confirm", some 0)] exampleBuilt))
          + getTotalRowHeight exampleEnv (clearButtons exampleEnv
            (addButtons exampleEnv [("ok", "confirm", some 0)] exampleBuilt)) := by
  obtain ⟨f1, f2, f3, f4, f5, f6, -⟩ := exampleBuilt_fields
  obtain ⟨hsame, hwf2⟩ := addButtons_inv exampleEnv [("ok", "confirm", some 0)] exampleBuilt
    (fun _ => exampleBuilt_cells)
  obtain ⟨c1, c2, -, c4⟩ := clearButtons_facts exampleEnv
    (addButtons exampleEnv [("ok", "confirm", some 0)] exampleBuilt) hwf2
  obtain ⟨k1, k2, k3, k4⟩ := hsame
  obtain ⟨j1, j2, -, -⟩ := SameLayoutInputs_updateSize_updateGrid exampleEnv exampleBuilt
    (addButtons exampleEnv [("ok", "confirm", some 0)] exampleBuilt) [] ⟨k1, k2, k3, k4⟩
  have hT : TITLE_HEIGHT exampleEnv (clearButtons exampleEnv
      (addButtons exampleEnv [("ok", "confirm", some 0)] exampleBuilt)) = 60 := by
    unfold clearButtons
    rw [j1, exampleBuilt_TITLE_HEIGHT]
  have hR : getTotalRowHeight exampleEnv (clearButtons exampleEnv
      (addButtons exampleEnv [("ok", "confirm", some 0)] exampleBuilt)) = 0 := by
    unfold clearButtons getTotalRowHeight rowHeights
    rw [j2, f3]
    simp
  have hc : computedHeight exampleEnv
      { addButtons exampleEnv [("ok", "confirm", some 0)] exampleBuilt with mButtonGrid := none }
      = computedHeight exampleEnv { exampleBuilt with mButtonGrid := none } :=
    computedHeight_congr exampleEnv _ _ k1 k2 k3 k4 rfl
  have hval : computedHeight exampleEnv { exampleBuilt with mButtonGrid := none }
      = 60 + 0 + (30 + 720 * 0.0296296) + 2 := by
    have hT0 : TITLE_HEIGHT exampleEnv { exampleBuilt with mButtonGrid := none } = 60 :=
      exampleBuilt_TITLE_HEIGHT
    unfold computedHeight naturalHeight getTotalRowHeight rowHeights maxHeight
      getButtonGridHeight
    rw [hT0]
    simp only [f3, f4, f5, exampleEnv_fadd]
    simp [exampleEnv, exampleTheme, BUTTON_GRID_VERT_PADDING]
    norm_num
  have hH : (clearButtons exampleEnv
      (addButtons exampleEnv [("ok", "confirm", some 0)] exampleBuilt)).mSize.y
      = 60 + 0 + (30 + 720 * 0.0296296) + 2 := by
    rw [c4, hc, hval]
    simp [exampleEnv]
  refine ⟨rfl, c1, c2, hT, hR, hH, ?_⟩
  rw [hH, hT, hR]
  norm_num

end MenuComponent

/-! ## Rows -/

namespace MenuComponent

theorem addRow_lastRow (env : Env) (row : ComponentListRow) (setCursorHere doUpdateSize : Bool)
    (userData : String) (s : MenuComponent) :
    (addRow env row setCursorHere doUpdateSize userData s).lastRow = some row := by
  unfold addRow lastRow
  cases doUpdateSize
  · simp
  · simp [(updateSize_fields env _).1]

/-- No element that `addMenuIcon` adds carries the resize-width flag. -/
theorem addMenuIcon_no_label (env : Env) (iconName : String) :
    ((addMenuIcon env {} iconName).elements.find? fun e => e.2) = none := by
  unfold addMenuIcon
  simp only []
  split_ifs <;> simp [ComponentListRow.addElement]

/-- The label `addWithLabel` appends is the caller's label in upper case. -/
theorem addWithLabel_label (env : Env) (label : String) (comp : Option Control)
    (func : Option Callback) (iconName : String) (setCursorHere : Bool) (s : MenuComponent) :
    ∃ row, (addWithLabel env label comp func iconName setCursorHere s).lastRow = some row
      ∧ row.label.bind RowElement.labelText = some (Utils.String.toUpper label)
      ∧ row.label.bind RowElement.labelAlignment
          = some (if env.isRTL then Alignment.ALIGN_RIGHT else Alignment.ALIGN_LEFT) := by
  unfold addWithLabel
  refine ⟨_, addRow_lastRow env _ _ _ _ _, ?_, ?_⟩
  · cases comp <;> cases func <;> cases hr : env.isRTL <;>
      simp [ComponentListRow.label, ComponentListRow.addElement,
        ComponentListRow.makeAcceptInputHandler, List.find?_append, addMenuIcon_no_label,
        RowElement.labelText]
  · cases comp <;> cases func <;> cases hr : env.isRTL <;>
      simp [ComponentListRow.label, ComponentListRow.addElement,
        ComponentListRow.makeAcceptInputHandler, List.find?_append, addMenuIcon_no_label,
        RowElement.labelAlignment]

/-- The label `addWithDescription` appends is the caller's label in upper case; when
the description is empty it is a text widget left at the default alignment, whatever
the locale. -/
theorem addWithDescription_label (env : Env) (label description : String)
    (comp : Option Control) (func : Option Callback) (iconName : String)
    (setCursorHere multiLine : Bool) (userData : String) (doUpdateSize : Bool)
    (s : MenuComponent) :
    ∃ row, (addWithDescription env label description comp func iconName setCursorHere
        multiLine userData doUpdateSize s).lastRow = some row
      ∧ row.label.bind RowElement.labelText = some (Utils.String.toUpper label)
      ∧ (description.isEmpty = true →
          row.label.bind RowElement.labelAlignment = some Alignment.ALIGN_LEFT) := by
  unfold addWithDescription
  by_cases hd : description.isEmpty = true
  · simp only [hd, not_true_eq_false, if_false]
    refine ⟨_, addRow_lastRow env _ _ _ _ _, ?_, ?_⟩
    · cases comp <;> cases func <;>
        simp [ComponentListRow.label, ComponentListRow.addElement,
          ComponentListRow.makeAcceptInputHandler, List.find?_append, addMenuIcon_no_label,
          RowElement.labelText]
    · intro _
      cases comp <;> cases func <;>
        simp [ComponentListRow.label, ComponentListRow.addElement,
          ComponentListRow.makeAcceptInputHandler, List.find?_append, addMenuIcon_no_label,
          RowElement.labelAlignment]
  · simp only [hd, not_false_eq_true, if_true]
    refine ⟨_, addRow_lastRow env _ _ _ _ _, ?_, ?_⟩
    · cases comp <;> cases func <;>
        simp [ComponentListRow.label, ComponentListRow.addElement,
          ComponentListRow.makeAcceptInputHandler, List.find?_append, addMenuIcon_no_label,
          RowElement.labelText]
    · intro h
      cases h

/-- The label `addEntry` appends is the caller's name as given; it is right-aligned
exactly under a right-to-left locale, and the arrow, when asked for, is the last
element and is mirrored exactly under a right-to-left locale. -/
theorem addEntry_label (env : Env) (name : String) (add_arrow : Bool)
    (func : Option Callback) (iconName : String) (setCursorHere onButtonRelease : Bool)
    (userData : String) (doUpdateSize : Bool) (s : MenuComponent) :
    ∃ row, (addEntry env name add_arrow func iconName setCursorHere onButtonRelease
        userData doUpdateSize s).lastRow = some row
      ∧ row.label.bind RowElement.labelText = some name
      ∧ row.label.bind RowElement.labelAlignment
          = some (if env.isRTL then Alignment.ALIGN_RIGHT else Alignment.ALIGN_LEFT)
      ∧ (add_arrow = true →
          row.trailingImage = some { makeArrow env with flipX := env.isRTL }) := by
  unfold addEntry
  refine ⟨_, addRow_lastRow env _ _ _ _ _, ?_, ?_, ?_⟩
  · cases add_arrow <;> cases func <;> cases hr : env.isRTL <;>
      simp [ComponentListRow.label, ComponentListRow.addElement,
        ComponentListRow.makeAcceptInputHandler, List.find?_append, addMenuIcon_no_label,
        RowElement.labelText]
  · cases add_arrow <;> cases func <;> cases hr : env.isRTL <;>
      simp [ComponentListRow.label, ComponentListRow.addElement,
        ComponentListRow.makeAcceptInputHandler, List.find?_append, addMenuIcon_no_label,
        RowElement.labelAlignment]
  · intro ha
    subst ha
    cases func <;> cases hr : env.isRTL <;>
      simp [ComponentListRow.trailingImage, ComponentListRow.addElement,
        ComponentListRow.makeAcceptInputHandler, makeArrow, hr]

/-- C8, the code at the failing input: `addEntry` with the name "Settings" appends a
row whose label reads "Settings", not its upper-case form "SETTINGS", whereas
`addWithLabel` and `addWithDescription` with the same label append "SETTINGS". -/
theorem addEntry_label_not_upper :
    Utils.String.toUpper "Settings" = "SETTINGS"
    ∧ (∃ row, (addEntry exampleEnv "Settings" true none "" false false "" true
          exampleBuilt).lastRow = some row
        ∧ row.label.bind RowElement.labelText = some "Settings"
        ∧ row.label.bind RowElement.labelText ≠ some (Utils.String.toUpper "Settings"))
    ∧ (∃ row, (addWithLabel exampleEnv "Settings" none none "" false exampleBuilt).lastRow
          = some row
        ∧ row.label.bind RowElement.labelText = some "SETTINGS")
    ∧ (∃ row, (addWithDescription exampleEnv "Settings" "" none none "" false false "" true
          exampleBuilt).lastRow = some row
        ∧ row.label.bind RowElement.labelText = some "SETTINGS") := by
  have hup : Utils.String.toUpper "Settings" = "SETTINGS" := by decide
  refine ⟨hup, ?_, ?_, ?_⟩
  · obtain ⟨row, h1, h2, -⟩ := addEntry_label exampleEnv "Settings" true none "" false false
      "" true exampleBuilt
    refine ⟨row, h1, h2, ?_⟩
    rw [h2, hup]
    decide
  · obtain ⟨row, h1, h2, -⟩ := addWithLabel_label exampleEnv "Settings" none none "" false
      exampleBuilt
    exact ⟨row, h1, by rw [h2, hup]⟩
  · obtain ⟨row, h1, h2, -⟩ := addWithDescription_label exampleEnv "Settings" "" none none ""
      false false "" true exampleBuilt
    exact ⟨row, h1, by rw [h2, hup]⟩

/-- C9, the code at the failing input: under a right-to-left locale `addWithDescription`
with an empty description appends a row whose label is left-aligned, whereas
`addWithLabel` and `addEntry` append a right-aligned label and `addEntry` mirrors the
arrow. -/
theorem addWithDescription_label_not_right_aligned :
    exampleEnvRTL.isRTL = true
    ∧ (∃ row, (addWithDescription exampleEnvRTL "Language" "" none none "" false false ""
          true exampleBuilt).lastRow = some row
        ∧ row.label.bind RowElement.labelAlignment = some Alignment.ALIGN_LEFT)
    ∧ (∃ row, (addWithLabel exampleEnvRTL "Language" none none "" false exampleBuilt).lastRow
          = some row
        ∧ row.label.bind RowElement.labelAlignment = some Alignment.ALIGN_RIGHT)
    ∧ (∃ row, (addEntry exampleEnvRTL "Language" true none "" false false "" true
          exampleBuilt).lastRow = some row
        ∧ row.label.bind RowElement.labelAlignment = some Alignment.ALIGN_RIGHT
        ∧ (row.trailingImage.map fun img => img.flipX) = some true) := by
  refine ⟨rfl, ?_, ?_, ?_⟩
  · obtain ⟨row, h1, -, h3⟩ := addWithDescription_label exampleEnvRTL "Language" "" none none
      "" false false "" true exampleBuilt
    exact ⟨row, h1, h3 (by decide)⟩
  · obtain ⟨row, h1, -, h3⟩ := addWithLabel_label exampleEnvRTL "Language" none none "" false
      exampleBuilt
    refine ⟨row, h1, ?_⟩
    rw [h3]; rfl
  · obtain ⟨row, h1, -, h3, h4⟩ := addEntry_label exampleEnvRTL "Language" true none "" false
      false "" true exampleBuilt
    refine ⟨row, h1, ?_, ?_⟩
    · rw [h3]; rfl
    · rw [h4 rfl]; rfl

/-! ## Input -/

end MenuComponent

end ES
